import Mathlib

/-!
Shallow embedding of the leafcutter-ant ecosystem simulator
(src/src/environment.py, src/src/simulation.py, src/src/balance.py,
src/src/models/*.py, src/src/utils.py, src/src/config.py).

Python floats are modelled by the executable fraction type `Q` below
(exact rational arithmetic without gcd normalization, so that the
kernel can evaluate concrete runs); the map `val : Q → ℚ` gives each
fraction its rational value and value-level statements are phrased
through it.  Python ints are Nat or Int.

The shared `random` module is modelled as an explicit oracle `Rng`: a
stream of fraction draws consumed in the exact order the source draws
them.  `random.random()` maps a draw to the unit interval via its
fractional part; `random.randint(0, n-1)` and `random.choice` map a
draw to an index via floor and modulo, so every outcome of the source
corresponds to some oracle and vice versa.

Runtime exceptions are modelled with `Except String`: the only raising
site in the stepping pipeline is `Fungus.update`, which in the source
invokes `environment.get_nearby_entities(...)` although class
`Environment` defines no such attribute, hence an `AttributeError`
whenever that call is reached.
-/

namespace AntsSim

/-- Exact fractions with unnormalized arithmetic: numerator over a
(positive, by construction) denominator.  All operations reduce to
integer arithmetic, which the kernel evaluates. -/
structure Q where
  n : ℤ
  d : ℕ
deriving DecidableEq, Repr

/-- The rational value of a fraction. -/
def Q.val (q : Q) : ℚ := (q.n : ℚ) / (q.d : ℚ)

/-- Embed a natural number. -/
def Q.ofNat (n : ℕ) : Q := ⟨(n : ℤ), 1⟩

/-- Embed an integer. -/
def Q.ofInt (n : ℤ) : Q := ⟨n, 1⟩

instance (n : ℕ) : OfNat Q n := ⟨Q.ofNat n⟩

instance : Add Q := ⟨fun a b => ⟨a.n * (b.d : ℤ) + b.n * (a.d : ℤ), a.d * b.d⟩⟩

instance : Sub Q := ⟨fun a b => ⟨a.n * (b.d : ℤ) - b.n * (a.d : ℤ), a.d * b.d⟩⟩

instance : Mul Q := ⟨fun a b => ⟨a.n * b.n, a.d * b.d⟩⟩

instance : Div Q := ⟨fun a b => ⟨a.n * (b.d : ℤ) * b.n.sign, a.d * b.n.natAbs⟩⟩

instance : LE Q := ⟨fun a b => a.n * (b.d : ℤ) ≤ b.n * (a.d : ℤ)⟩

instance : LT Q := ⟨fun a b => a.n * (b.d : ℤ) < b.n * (a.d : ℤ)⟩

instance (a b : Q) : Decidable (a ≤ b) :=
  inferInstanceAs (Decidable (a.n * (b.d : ℤ) ≤ b.n * (a.d : ℤ)))

instance (a b : Q) : Decidable (a < b) :=
  inferInstanceAs (Decidable (a.n * (b.d : ℤ) < b.n * (a.d : ℤ)))

/-- Python min of two floats: the first argument on ties. -/
def qmin (a b : Q) : Q := if a ≤ b then a else b

/-- Python max of two floats: the first argument on ties. -/
def qmax (a b : Q) : Q := if b ≤ a then a else b

/-- Floor of a fraction (denominator positive by construction). -/
def Q.floor (q : Q) : ℤ := q.n.fdiv (q.d : ℤ)

/-- Sum of a list of fractions. -/
def qsum (l : List Q) : Q := l.foldl (· + ·) 0

/-- Well-formedness: the denominator is positive.  Every fraction the
embedded program builds satisfies it. -/
def Q.Wf (q : Q) : Prop := 0 < q.d

instance (q : Q) : Decidable q.Wf := inferInstanceAs (Decidable (0 < q.d))

/-- Oracle for the shared random source: a stream of fraction draws
plus a cursor. -/
structure Rng where
  vals : Nat → Q
  idx : Nat

/-- Consume one draw from the oracle. -/
def Rng.next (r : Rng) : Q × Rng :=
  (r.vals r.idx, { r with idx := r.idx + 1 })

/-- Build an oracle from a list of draws (0 after the list ends). -/
def rngOf (l : List Q) : Rng :=
  ⟨fun n => l.getD n 0, 0⟩

/-- Fractional part: maps an arbitrary oracle draw into [0,1), the
range of Python random.random(). -/
def unitFrac (q : Q) : Q := q - Q.ofInt q.floor

/-- Map an oracle draw to an index in [0, n), the range of
random.randint(0, n-1) and of a random.choice index. -/
def natDraw (q : Q) (n : Nat) : Nat := q.floor.toNat % n

/-- utils.probability_check: random.random() < probability, applied to
one oracle draw q. -/
def probability_check (q p : Q) : Bool := decide (unitFrac q < p)

/-- Grid position, integer pair. -/
abbrev Pos := ℤ × ℤ

/-- utils.Direction member order: NORTH, SOUTH, WEST, EAST, STAY. -/
def directions : List Pos := [(-1, 0), (1, 0), (0, -1), (0, 1), (0, 0)]

/-- utils.manhattan_distance. -/
def manhattan_distance (p q : Pos) : Nat :=
  (p.1 - q.1).natAbs + (p.2 - q.2).natAbs

/-- utils.get_neighbors (4-neighborhood, fixed direction order,
filtered to the grid). -/
def get_neighbors (pos : Pos) (grid_size : Nat) : List Pos :=
  [((-1 : ℤ), (0 : ℤ)), (1, 0), (0, -1), (0, 1)].filterMap fun d =>
    let n : Pos := (pos.1 + d.1, pos.2 + d.2)
    if 0 ≤ n.1 ∧ n.1 < (grid_size : ℤ) ∧ 0 ≤ n.2 ∧ n.2 < (grid_size : ℤ) then some n else none

/-- utils.clamp_position. -/
def clamp_position (pos : Pos) (grid_size : Nat) : Pos :=
  (max 0 (min pos.1 ((grid_size : ℤ) - 1)), max 0 (min pos.2 ((grid_size : ℤ) - 1)))

/-- utils.Climate. -/
inductive Climate where
  | rain
  | dry
deriving DecidableEq, Repr

/-- The RAIN-DRY flip performed by Environment._update_climate. -/
def toggleClimate : Climate → Climate
  | .rain => .dry
  | .dry => .rain

/-- Grid tile symbols (entity.py TILE_* constants). -/
inductive Tile where
  | empty
  | ant
  | plant
  | fungus
  | parasite
  | predator
deriving DecidableEq, Repr

/-! ### Entity model (src/src/models) -/

/-- models/ant.py Ant state. -/
structure Ant where
  position : Pos
  active : Bool := true
  energy : Q := 100
  carrying_food : Bool := false
deriving DecidableEq, Repr

/-- models/plant.py Plant state. -/
structure Plant where
  position : Pos
  active : Bool := true
  maturity : ℤ := 100
  growth_rate : ℤ := 1
deriving DecidableEq, Repr

/-- models/fungus.py Fungus state. -/
structure Fungus where
  position : Pos
  active : Bool := true
  nutrition_value : Q := 10
  age : Nat := 0
  max_age : Nat := 100
  health : Q := 1
deriving DecidableEq, Repr

/-- models/parasite.py Parasite state. -/
structure Parasite where
  position : Pos
  active : Bool := true
  virulence : Q := 1
  age : Nat := 0
  max_age : Nat := 200
  spread_attempts : Nat := 0
  max_spread_attempts : Nat := 5
deriving DecidableEq, Repr

/-- models/predator.py Predator state. -/
structure Predator where
  position : Pos
  active : Bool := true
  hunting_efficiency : Q := 1
  energy : ℤ := 100
  max_energy : ℤ := 150
  energy_decay_rate : ℤ := 2
  hunt_range : Nat := 3
  last_meal_step : Nat := 0
deriving DecidableEq, Repr

/-- Fungus(position) with the default nutrition_value 10.0, as used by
Environment.add_fungus. -/
def mkFungus (pos : Pos) : Fungus := { position := pos }

/-- Parasite(position, virulence). -/
def mkParasite (pos : Pos) (virulence : Q) : Parasite :=
  { position := pos, virulence := virulence }

/-- Predator(position) with default hunting_efficiency 1.0. -/
def mkPredator (pos : Pos) : Predator := { position := pos }

/-- Plant(position) with default maturity 100. -/
def mkPlant (pos : Pos) : Plant := { position := pos }

/-- Ant(position). -/
def mkAnt (pos : Pos) : Ant := { position := pos }

/-- plant.py Plant.update: grow toward maturity 100, otherwise passive. -/
def Plant.update (p : Plant) : Plant :=
  if p.maturity < 100 then { p with maturity := min 100 (p.maturity + p.growth_rate) } else p

/-- plant.py Plant.can_be_harvested: maturity at least 50. -/
def Plant.can_be_harvested (p : Plant) : Bool := decide (50 ≤ p.maturity)

/-- fungus.py Fungus.can_be_consumed: nutrition_value above 5. -/
def Fungus.can_be_consumed (f : Fungus) : Bool := decide ((5 : Q) < f.nutrition_value)

/-- fungus.py Fungus.consume: remove up to amount nutrition and reset
health to max(0.2, nutrition/10). -/
def Fungus.consume (f : Fungus) (amount : Q) : Q × Fungus :=
  let consumed := qmin amount f.nutrition_value
  let nv := f.nutrition_value - consumed
  (consumed, { f with nutrition_value := nv, health := qmax (1/5) (nv / 10) })

/-- The message of the AttributeError raised by the call
environment.get_nearby_entities(...) at fungus.py line 51, because class
Environment (environment.py) defines no attribute of that name. -/
def getNearbyEntitiesError : String :=
  "AttributeError: Environment object has no attribute get_nearby_entities"

/-- fungus.py Fungus.update: age, decay at max_age, grow nutrition while
young; then, when health exceeds 0.4, the source calls
environment.get_nearby_entities, an attribute class Environment does not
define, so the update raises AttributeError there. -/
def Fungus.update (f : Fungus) : Except String Fungus :=
  let f := { f with age := f.age + 1 }
  if f.max_age ≤ f.age then .ok { f with active := false }
  else
    let f :=
      if f.age < 20 ∧ f.nutrition_value < 20 then
        { f with nutrition_value := f.nutrition_value + 1/10 }
      else f
    if 2/5 < f.health then .error getNearbyEntitiesError
    else .ok f

/-- parasite.py Parasite._attempt_spread: bounded spread attempts; on a
successful probability check, pick a 4-neighbor holding no parasite and
create there a parasite of virulence max(0.3, 0.8 x own). -/
def Parasite.attempt_spread (grid_size : Nat) (spread_chance : Q) (p : Parasite)
    (parasites : List Parasite) (r : Rng) : Parasite × Option Parasite × Rng :=
  if p.max_spread_attempts ≤ p.spread_attempts then (p, none, r)
  else
    let adjusted := spread_chance * p.virulence
    let (q, r) := r.next
    if probability_check q adjusted then
      let neighbors := get_neighbors p.position grid_size
      if neighbors.isEmpty then (p, none, r)
      else
        let available := neighbors.filter fun pos =>
          !(parasites.any fun par => decide (par.position = pos))
        if available.isEmpty then (p, none, r)
        else
          let (q2, r) := r.next
          let npos := available.getD (natDraw q2 available.length) (0, 0)
          ({ p with spread_attempts := p.spread_attempts + 1 },
            some (mkParasite npos (qmax (3/10) (p.virulence * (4/5)))), r)
    else (p, none, r)

/-- parasite.py Parasite.update: age, die at max_age, attempt spread,
decay virulence by 1 percent per tick after age 50 (floored at 0.1). -/
def Parasite.update (grid_size : Nat) (spread_chance : Q) (p : Parasite)
    (parasites : List Parasite) (r : Rng) : Parasite × Option Parasite × Rng :=
  let p := { p with age := p.age + 1 }
  if p.max_age ≤ p.age then ({ p with active := false }, none, r)
  else
    let (p, newP, r) := Parasite.attempt_spread grid_size spread_chance p parasites r
    let p :=
      if 50 < p.age then { p with virulence := qmax (1/10) (p.virulence * (99/100)) } else p
    (p, newP, r)

/-- predator.py Predator._find_nearby_ants followed by the first-minimal
choice Python min makes: index and value of the closest active ant within
hunt range, earliest index winning ties. -/
def closestAnt (pos : Pos) (range : Nat) (ants : List Ant) : Option (Nat × Ant) :=
  (ants.enum.filter fun ia =>
      ia.2.active && decide (manhattan_distance pos ia.2.position ≤ range)).foldl
    (fun best ia =>
      match best with
      | none => some ia
      | some jb =>
        if manhattan_distance pos ia.2.position < manhattan_distance pos jb.2.position then
          some ia
        else some jb)
    none

/-- predator.py Predator.update: decay energy, die at 0; hunt the closest
ant in range with probability 0.7 x hunting_efficiency (gaining energy,
capped); then step toward the closest remaining ant in range, or randomly. -/
def Predator.update (grid_size : Nat) (p : Predator) (ants : List Ant) (r : Rng) :
    Predator × List Ant × Rng :=
  let p := { p with energy := p.energy - p.energy_decay_rate }
  if p.energy ≤ 0 then ({ p with active := false }, ants, r)
  else
    let hunted : Predator × List Ant × Rng :=
      match closestAnt p.position p.hunt_range ants with
      | none => (p, ants, r)
      | some (j, a) =>
        let (q, r') := r.next
        if probability_check q (7/10 * p.hunting_efficiency) then
          ({ p with energy := min p.max_energy (p.energy + 30), last_meal_step := 0 },
            ants.set j { a with active := false }, r')
        else (p, ants, r')
    let p := hunted.1
    let ants := hunted.2.1
    let r := hunted.2.2
    match closestAnt p.position p.hunt_range ants with
    | some (_, a) =>
      let dx : ℤ :=
        if a.position.1 = p.position.1 then 0 else if p.position.1 < a.position.1 then 1 else -1
      let dy : ℤ :=
        if a.position.2 = p.position.2 then 0 else if p.position.2 < a.position.2 then 1 else -1
      ({ p with position := clamp_position (p.position.1 + dx, p.position.2 + dy) grid_size },
        ants, r)
    | none =>
      let (q, r') := r.next
      let d := directions.getD (natDraw q 5) (0, 0)
      ({ p with position := clamp_position (p.position.1 + d.1, p.position.2 + d.2) grid_size },
        ants, r')

/-- ant.py Ant._check_for_threats: any predator or parasite at the given
position; the source iterates the full collections with no active filter. -/
def threatAt (pos : Pos) (predators : List Predator) (parasites : List Parasite) : Bool :=
  (predators.any fun p => decide (p.position = pos)) ||
    (parasites.any fun p => decide (p.position = pos))

/-- ant.py Ant._interact_with_environment: the first plant whose position
equals the ant position (no active and no maturity filter) is deactivated
and a default fungus is created there. -/
def Ant.interact_with_environment (pos : Pos) (plants : List Plant) (fungi : List Fungus) :
    List Plant × List Fungus :=
  match plants.findIdx? (fun p => decide (p.position = pos)) with
  | none => (plants, fungi)
  | some i =>
    (plants.set i { plants.getD i (mkPlant (0, 0)) with active := false },
      fungi ++ [mkFungus pos])

/-- ant.py Ant.update: die on a threat at the current cell, otherwise take
one random clamped step, die on a threat at the new cell, otherwise
interact with the environment there. -/
def Ant.update (grid_size : Nat) (predators : List Predator) (parasites : List Parasite)
    (a : Ant) (plants : List Plant) (fungi : List Fungus) (r : Rng) :
    Ant × List Plant × List Fungus × Rng :=
  if threatAt a.position predators parasites then
    ({ a with active := false }, plants, fungi, r)
  else
    let (q, r) := r.next
    let d := directions.getD (natDraw q 5) (0, 0)
    let newpos := clamp_position (a.position.1 + d.1, a.position.2 + d.2) grid_size
    let a := { a with position := newpos }
    if threatAt newpos predators parasites then
      ({ a with active := false }, plants, fungi, r)
    else
      let (plants, fungi) := Ant.interact_with_environment newpos plants fungi
      (a, plants, fungi, r)

/-! ### Configuration (src/src/config.py) -/

/-- config.py PlantRegenerationConfig. -/
structure PlantRegenerationConfig where
  interval : Nat
  probability : Q
  max_plants : Nat
deriving DecidableEq, Repr

/-- config.py ReproductionConfig. -/
structure ReproductionConfig where
  food_threshold : Nat
  larvae_period : Nat
  larvae_per_cycle : Nat
deriving DecidableEq, Repr

/-- config.py ClimateEffects. -/
structure ClimateEffects where
  plant_regen_multiplier : Q
  predator_spawn_reduction : Q
  predator_spawn_increase : Q
deriving DecidableEq, Repr

/-- config.py ClimateConfig. -/
structure ClimateConfig where
  cycle_length : Nat
  rain_duration : Nat
  dry_duration : Nat
  rain_effects : ClimateEffects
  dry_effects : ClimateEffects
deriving DecidableEq, Repr

/-- config.py PredatorBalanceConfig. -/
structure PredatorBalanceConfig where
  target_ant_predator_ratio : Q
  spawn_adjustment_rate : Q
  base_spawn_chance : Q
deriving DecidableEq, Repr

/-- config.py ParasiteDynamicsConfig. -/
structure ParasiteDynamicsConfig where
  spread_chance : Q
  infection_radius : Nat
deriving DecidableEq, Repr

/-- config.py SimulationConfig. -/
structure SimulationConfig where
  grid_size : Nat
  simulation_steps : Nat
  animation_speed : Q
  initial_ants : Nat
  initial_plants : Nat
  initial_fungi : Nat
  initial_parasites : Nat
  initial_predators : Nat
  plant_regeneration : PlantRegenerationConfig
  reproduction : ReproductionConfig
  climate : ClimateConfig
  predator_balance : PredatorBalanceConfig
  parasite_dynamics : ParasiteDynamicsConfig
deriving DecidableEq, Repr

/-! ### Environment (src/src/environment.py) -/

/-- The five entity collections of the Environment, threaded through the
tick phases. -/
structure Pops where
  ants : List Ant
  plants : List Plant
  fungi : List Fungus
  parasites : List Parasite
  predators : List Predator
deriving DecidableEq, Repr

/-- Environment metrics time series. -/
structure Metrics where
  step : List Nat := []
  ant_count : List Nat := []
  plant_count : List Nat := []
  fungus_count : List Nat := []
  parasite_count : List Nat := []
  predator_count : List Nat := []
  food_stock : List Q := []
  climate : List Climate := []
deriving DecidableEq, Repr

/-- environment.py Environment state. -/
structure Environment where
  config : SimulationConfig
  grid_size : Nat
  step_count : Nat
  ants : List Ant
  plants : List Plant
  fungi : List Fungus
  parasites : List Parasite
  predators : List Predator
  current_climate : Climate
  climate_timer : Nat
  food_stock : Q
  larvae_stock : Nat
  metrics : Metrics
deriving DecidableEq, Repr

/-- environment.py Environment._update_climate: increment the timer and,
once it reaches cycle_length, switch climate and reset the timer. -/
def update_climate (cc : ClimateConfig) (clim : Climate) (timer : Nat) : Climate × Nat :=
  let timer := timer + 1
  if cc.cycle_length ≤ timer then
    match clim with
    | .dry => (.rain, 0)
    | .rain => (.dry, 0)
  else (clim, timer)

/-- Plants pass of Environment._update_entities: update active plants in
place (Plant.update touches nothing else in the environment). -/
def plantsPhase (plants : List Plant) : List Plant :=
  plants.map fun p => if p.active then p.update else p

/-- Fungi pass of Environment._update_entities: update active fungi in
order, propagating the AttributeError a Fungus.update call raises. -/
def fungiPhase : List Fungus → Except String (List Fungus)
  | [] => .ok []
  | f :: fs =>
    match (if f.active then f.update else .ok f) with
    | .error e => .error e
    | .ok f' =>
      match fungiPhase fs with
      | .error e => .error e
      | .ok fs' => .ok (f' :: fs')

/-- Parasites pass of Environment._update_entities: iterate over a
snapshot of the original indices while spread appends to the live list. -/
def parasiteLoop (grid_size : Nat) (spread_chance : Q) :
    Nat → Nat → List Parasite → Rng → List Parasite × Rng
  | 0, _, ps, r => (ps, r)
  | fuel + 1, i, ps, r =>
    let p := ps.getD i (mkParasite (0, 0) 1)
    if p.active then
      let (p', np, r') := Parasite.update grid_size spread_chance p ps r
      let ps' := ps.set i p'
      let ps'' := match np with | none => ps' | some x => ps' ++ [x]
      parasiteLoop grid_size spread_chance fuel (i + 1) ps'' r'
    else parasiteLoop grid_size spread_chance fuel (i + 1) ps r

/-- Predators pass of Environment._update_entities: each active predator
updates itself and may kill an ant. -/
def predatorLoop (grid_size : Nat) :
    Nat → Nat → List Predator → List Ant → Rng → List Predator × List Ant × Rng
  | 0, _, preds, ants, r => (preds, ants, r)
  | fuel + 1, i, preds, ants, r =>
    let p := preds.getD i (mkPredator (0, 0))
    if p.active then
      let (p', ants', r') := Predator.update grid_size p ants r
      predatorLoop grid_size fuel (i + 1) (preds.set i p') ants' r'
    else predatorLoop grid_size fuel (i + 1) preds ants r

/-- Ants pass of Environment._update_entities: each still-active ant moves
and may turn a plant into a fungus. -/
def antLoop (grid_size : Nat) (predators : List Predator) (parasites : List Parasite) :
    Nat → Nat → List Ant → List Plant → List Fungus → Rng →
      List Ant × List Plant × List Fungus × Rng
  | 0, _, ants, plants, fungi, r => (ants, plants, fungi, r)
  | fuel + 1, i, ants, plants, fungi, r =>
    let a := ants.getD i (mkAnt (0, 0))
    if a.active then
      let (a', plants', fungi', r') :=
        Ant.update grid_size predators parasites a plants fungi r
      antLoop grid_size predators parasites fuel (i + 1) (ants.set i a') plants' fungi' r'
    else antLoop grid_size predators parasites fuel (i + 1) ants plants fungi r

/-- environment.py Environment._update_entities: plants, fungi, parasites,
predators, ants, each over a snapshot of the collection. -/
def update_entities (grid_size : Nat) (spread_chance : Q) (pops : Pops) (r : Rng) :
    Except String (Pops × Rng) :=
  let plants1 := plantsPhase pops.plants
  match fungiPhase pops.fungi with
  | .error e => .error e
  | .ok fungi1 =>
    let (parasites1, r) :=
      parasiteLoop grid_size spread_chance pops.parasites.length 0 pops.parasites r
    let (predators1, ants1, r) :=
      predatorLoop grid_size pops.predators.length 0 pops.predators pops.ants r
    let (ants2, plants2, fungi2, r) :=
      antLoop grid_size predators1 parasites1 ants1.length 0 ants1 plants1 fungi1 r
    .ok (⟨ants2, plants2, fungi2, parasites1, predators1⟩, r)

/-- environment.py Environment._cleanup_entities: drop inactive entities. -/
def cleanup_entities (pops : Pops) : Pops :=
  ⟨pops.ants.filter (·.active), pops.plants.filter (·.active), pops.fungi.filter (·.active),
    pops.parasites.filter (·.active), pops.predators.filter (·.active)⟩

/-- All occupied positions, over all five collections with no active
filter, in the order Environment._plant_regeneration collects them. -/
def allPositions (pops : Pops) : List Pos :=
  pops.ants.map (·.position) ++ pops.plants.map (·.position) ++ pops.fungi.map (·.position) ++
    pops.parasites.map (·.position) ++ pops.predators.map (·.position)

/-- The bounded placement search of Environment._plant_regeneration: up to
20 random cells, placing one plant on the first unoccupied one. -/
def placeLoop (grid_size : Nat) (occupied : List Pos) :
    Nat → List Plant → Rng → List Plant × Rng
  | 0, plants, r => (plants, r)
  | attempts + 1, plants, r =>
    let (qx, r) := r.next
    let (qy, r) := r.next
    let pos : Pos := ((natDraw qx grid_size : ℤ), (natDraw qy grid_size : ℤ))
    if occupied.any fun o => decide (o = pos) then placeLoop grid_size occupied attempts plants r
    else (plants ++ [mkPlant pos], r)

/-- environment.py Environment._plant_regeneration. -/
def plant_regeneration (prc : PlantRegenerationConfig) (cc : ClimateConfig) (clim : Climate)
    (grid_size step_count : Nat) (pops : Pops) (r : Rng) : List Plant × Rng :=
  if step_count % prc.interval ≠ 0 then (pops.plants, r)
  else if prc.max_plants ≤ pops.plants.length then (pops.plants, r)
  else
    let regen_prob :=
      if clim = .rain then prc.probability * cc.rain_effects.plant_regen_multiplier
      else prc.probability * cc.dry_effects.plant_regen_multiplier
    let (q, r) := r.next
    if probability_check q regen_prob then
      placeLoop grid_size (allPositions pops) 20 pops.plants r
    else (pops.plants, r)

/-- The food-consumption loop of Environment._ant_reproduction: walk the
fungi in order while food is still needed, consuming from each consumable
fungus, deactivating it when fully consumed. -/
def consumeLoop : Q → List Fungus → Q × List Fungus
  | needed, [] => (needed, [])
  | needed, f :: fs =>
    if needed ≤ 0 then (needed, f :: fs)
    else if f.can_be_consumed then
      let consumed := qmin needed f.nutrition_value
      let rest := consumeLoop (needed - consumed) fs
      if f.nutrition_value ≤ consumed then (rest.1, { f with active := false } :: rest.2)
      else (rest.1, { f with nutrition_value := f.nutrition_value - consumed } :: rest.2)
    else
      let rest := consumeLoop needed fs
      (rest.1, f :: rest.2)

/-- One new-ant placement of Environment._ant_reproduction: near a random
existing ant if some neighboring or same cell is unoccupied by a non-ant
entity, otherwise at a random cell. -/
def newAntPos (grid_size : Nat) (plants : List Plant) (fungi : List Fungus)
    (parasites : List Parasite) (predators : List Predator) (ants : List Ant) (r : Rng) :
    Pos × Rng :=
  if ants.isEmpty then
    let (qx, r) := r.next
    let (qy, r) := r.next
    (((natDraw qx grid_size : ℤ), (natDraw qy grid_size : ℤ)), r)
  else
    let (q, r) := r.next
    let parent := ants.getD (natDraw q ants.length) (mkAnt (0, 0))
    let possible := get_neighbors parent.position grid_size ++ [parent.position]
    let occupied := plants.map (·.position) ++ fungi.map (·.position) ++
      parasites.map (·.position) ++ predators.map (·.position)
    let available := possible.filter fun pos => !(occupied.any fun o => decide (o = pos))
    if available.isEmpty then
      let (qx, r) := r.next
      let (qy, r) := r.next
      (((natDraw qx grid_size : ℤ), (natDraw qy grid_size : ℤ)), r)
    else
      let (q2, r) := r.next
      (available.getD (natDraw q2 available.length) (0, 0), r)

/-- The new-ant loop of Environment._ant_reproduction. -/
def addAnts (grid_size : Nat) (plants : List Plant) (fungi : List Fungus)
    (parasites : List Parasite) (predators : List Predator) :
    Nat → List Ant → Rng → List Ant × Rng
  | 0, ants, r => (ants, r)
  | k + 1, ants, r =>
    let (pos, r') := newAntPos grid_size plants fungi parasites predators ants r
    addAnts grid_size plants fungi parasites predators k (ants ++ [mkAnt pos]) r'

/-- Total nutrition over consumable fungi, as summed by
Environment._ant_reproduction. -/
def consumableSum (fs : List Fungus) : Q :=
  qsum (fs.map fun f => if f.can_be_consumed then f.nutrition_value else 0)

/-- environment.py Environment._ant_reproduction: on reproduction ticks
with enough consumable nutrition, consume food_threshold units across the
fungi and add larvae_per_cycle new ants. -/
def ant_reproduction (rc : ReproductionConfig) (grid_size step_count : Nat) (pops : Pops)
    (r : Rng) : List Fungus × List Ant × Rng :=
  if step_count % rc.larvae_period ≠ 0 then (pops.fungi, pops.ants, r)
  else
    let total := consumableSum pops.fungi
    if Q.ofNat rc.food_threshold ≤ total then
      let consumed := consumeLoop (Q.ofNat rc.food_threshold) pops.fungi
      let fungi' := consumed.2
      let (ants', r') := addAnts grid_size pops.plants fungi' pops.parasites pops.predators
        rc.larvae_per_cycle pops.ants r
      (fungi', ants', r')
    else (pops.fungi, pops.ants, r)

/-- environment.py Environment._predator_spawning. -/
def predator_spawning (pb : PredatorBalanceConfig) (cc : ClimateConfig) (clim : Climate)
    (grid_size : Nat) (current_ants : Nat) (predators : List Predator) (r : Rng) :
    List Predator × Rng :=
  if current_ants = 0 then (predators, r)
  else
    let target : Q := qmax 1 (Q.ofInt ((Q.ofNat current_ants / pb.target_ant_predator_ratio).floor))
    let spawn_multiplier : Q :=
      if Q.ofNat predators.length < target then 3/2
      else if target < Q.ofNat predators.length then 3/10
      else 1
    let spawn_multiplier :=
      if clim = .rain then spawn_multiplier * cc.rain_effects.predator_spawn_reduction
      else spawn_multiplier * cc.dry_effects.predator_spawn_increase
    let final_spawn_chance := pb.base_spawn_chance * spawn_multiplier
    let (q, r) := r.next
    if probability_check q final_spawn_chance then
      let (qx, r) := r.next
      let (qy, r) := r.next
      (predators ++ [mkPredator ((natDraw qx grid_size : ℤ), (natDraw qy grid_size : ℤ))], r)
    else (predators, r)

/-- environment.py Environment._update_metrics. -/
def update_metrics (m : Metrics) (step_count : Nat) (clim : Climate) (pops : Pops) : Metrics :=
  { step := m.step ++ [step_count]
    ant_count := m.ant_count ++ [pops.ants.length]
    plant_count := m.plant_count ++ [pops.plants.length]
    fungus_count := m.fungus_count ++ [pops.fungi.length]
    parasite_count := m.parasite_count ++ [pops.parasites.length]
    predator_count := m.predator_count ++ [pops.predators.length]
    food_stock := m.food_stock ++ [qsum (pops.fungi.map (·.nutrition_value))]
    climate := m.climate ++ [clim] }

/-- environment.py Environment.step: the fixed seven-phase tick pipeline. -/
def Environment.step (env : Environment) (r : Rng) : Except String (Environment × Rng) :=
  let sc := env.step_count + 1
  let ct := update_climate env.config.climate env.current_climate env.climate_timer
  match update_entities env.grid_size env.config.parasite_dynamics.spread_chance
      ⟨env.ants, env.plants, env.fungi, env.parasites, env.predators⟩ r with
  | .error e => .error e
  | .ok (pops, r) =>
    let pops := cleanup_entities pops
    let (plants', r) := plant_regeneration env.config.plant_regeneration env.config.climate
      ct.1 env.grid_size sc pops r
    let pops := { pops with plants := plants' }
    let (fungi', ants', r) := ant_reproduction env.config.reproduction env.grid_size sc pops r
    let pops := { pops with fungi := fungi', ants := ants' }
    let (predators', r) := predator_spawning env.config.predator_balance env.config.climate
      ct.1 env.grid_size pops.ants.length pops.predators r
    let pops := { pops with predators := predators' }
    .ok ({ env with
            step_count := sc
            current_climate := ct.1
            climate_timer := ct.2
            ants := pops.ants
            plants := pops.plants
            fungi := pops.fungi
            parasites := pops.parasites
            predators := pops.predators
            metrics := update_metrics env.metrics sc ct.1 pops }, r)

/-- utils.random_positions: a list of uniformly random grid cells. -/
def random_positions (count grid_size : Nat) (r : Rng) : List Pos × Rng :=
  match count with
  | 0 => ([], r)
  | n + 1 =>
    let (qx, r) := r.next
    let (qy, r) := r.next
    let pos : Pos := ((natDraw qx grid_size : ℤ), (natDraw qy grid_size : ℤ))
    let (rest, r) := random_positions n grid_size r
    (pos :: rest, r)

/-- environment.py Environment.__init__ together with
_initialize_entities: random placement of the configured populations. -/
def initEnvironment (cfg : SimulationConfig) (r : Rng) : Environment × Rng :=
  let (antPos, r) := random_positions cfg.initial_ants cfg.grid_size r
  let (plantPos, r) := random_positions cfg.initial_plants cfg.grid_size r
  let (fungusPos, r) := random_positions cfg.initial_fungi cfg.grid_size r
  let (parasitePos, r) := random_positions cfg.initial_parasites cfg.grid_size r
  let (predatorPos, r) := random_positions cfg.initial_predators cfg.grid_size r
  ({ config := cfg
     grid_size := cfg.grid_size
     step_count := 0
     ants := antPos.map mkAnt
     plants := plantPos.map mkPlant
     fungi := fungusPos.map mkFungus
     parasites := parasitePos.map (mkParasite · 1)
     predators := predatorPos.map mkPredator
     current_climate := .dry
     climate_timer := 0
     food_stock := 0
     larvae_stock := 0
     metrics := {} }, r)

/-- Write one tile into the grid matrix (grid[x][y] in the source; all
entity positions lie inside the grid in every reachable state). -/
def setCell (g : List (List Tile)) (x y : ℤ) (t : Tile) : List (List Tile) :=
  g.set x.toNat ((g.getD x.toNat []).set y.toNat t)

/-- environment.py Environment.render_grid, as the tile matrix underlying
the rendered string: layers plant, fungus, parasite, predator, ant, active
entities only, later layers overwriting earlier ones. -/
def render_grid (env : Environment) : List (List Tile) :=
  let g := List.replicate env.grid_size (List.replicate env.grid_size Tile.empty)
  let g := env.plants.foldl
    (fun g p => if p.active then setCell g p.position.1 p.position.2 .plant else g) g
  let g := env.fungi.foldl
    (fun g p => if p.active then setCell g p.position.1 p.position.2 .fungus else g) g
  let g := env.parasites.foldl
    (fun g p => if p.active then setCell g p.position.1 p.position.2 .parasite else g) g
  let g := env.predators.foldl
    (fun g p => if p.active then setCell g p.position.1 p.position.2 .predator else g) g
  env.ants.foldl
    (fun g p => if p.active then setCell g p.position.1 p.position.2 .ant else g) g

/-- Number of non-empty cells of a rendered grid. -/
def countNonEmpty (g : List (List Tile)) : Nat :=
  (g.map fun row => row.countP fun t => decide (t ≠ Tile.empty)).sum

/-! ### Simulation driver (src/src/simulation.py) -/

/-- simulation.py Simulation state. -/
structure Simulation where
  config : SimulationConfig
  environment : Environment
  is_running : Bool
  current_step : Nat
deriving DecidableEq, Repr

/-- simulation.py Simulation.__init__. -/
def mkSimulation (cfg : SimulationConfig) (r : Rng) : Simulation × Rng :=
  let (env, r') := initEnvironment cfg r
  (⟨cfg, env, false, 0⟩, r')

/-- simulation.py Simulation._check_extinction: no ants, or fewer than
three ants plus plants plus fungi. -/
def check_extinction (env : Environment) : Bool :=
  if env.ants.length = 0 then true
  else if env.ants.length + env.plants.length + env.fungi.length < 3 then true
  else false

/-- simulation.py Simulation.step_once: mark running; advance by one tick
only when the step budget is not exhausted and extinction has not been
reached; always return the rendered grid. -/
def step_once (sim : Simulation) (r : Rng) :
    Except String (List (List Tile) × Simulation × Rng) :=
  let sim := if sim.is_running then sim else { sim with is_running := true }
  if sim.current_step < sim.config.simulation_steps ∧ check_extinction sim.environment = false
  then
    match sim.environment.step r with
    | .error e => .error e
    | .ok (env', r') =>
      .ok (render_grid env',
        { sim with environment := env', current_step := sim.current_step + 1 }, r')
  else .ok (render_grid sim.environment, sim, r)

/-- The while loop of simulation.py Simulation.run, with fuel bounding the
remaining iterations; yields the grid after every tick taken. -/
def runLoop (max_steps : Nat) :
    Nat → Simulation → Rng → Except String (Simulation × Rng × List (List (List Tile)))
  | 0, sim, r => .ok (sim, r, [])
  | fuel + 1, sim, r =>
    if sim.is_running = true ∧ sim.current_step < max_steps then
      if check_extinction sim.environment = true then .ok (sim, r, [])
      else
        match sim.environment.step r with
        | .error e => .error e
        | .ok (env', r') =>
          let sim' := { sim with environment := env', current_step := sim.current_step + 1 }
          match runLoop max_steps fuel sim' r' with
          | .error e => .error e
          | .ok (simf, rf, grids) => .ok (simf, rf, render_grid env' :: grids)
    else .ok (sim, r, [])

/-- simulation.py Simulation.run: yield the initial grid, then the grid
after each tick until extinction or the step budget stops the loop. -/
def Simulation.run (sim : Simulation) (max_steps : Nat) (r : Rng) :
    Except String (Simulation × Rng × List (List (List Tile))) :=
  let sim := { sim with is_running := true, current_step := 0 }
  match runLoop max_steps max_steps sim r with
  | .error e => .error e
  | .ok (simf, rf, grids) => .ok (simf, rf, render_grid sim.environment :: grids)

/-! ### Balance analyzer (src/src/balance.py) -/

/-- balance.py EcosystemBalance._calculate_population_health. -/
def calculate_population_health (ant_count : Nat) : Q :=
  if ant_count = 0 then 0
  else if ant_count < 20 then Q.ofNat ant_count / 20
  else if ant_count ≤ 60 then 1
  else 1 - qmin (1/2) ((Q.ofNat ant_count - 60) / 60)

/-! ### Concrete scenario data used by witnesses and counterexamples -/

/-- A typical valid configuration (grid 5, one ant, nothing else),
matching Scenario A of the spec. -/
def cfgScenarioA : SimulationConfig :=
  { grid_size := 5
    simulation_steps := 100
    animation_speed := 1/5
    initial_ants := 1
    initial_plants := 0
    initial_fungi := 0
    initial_parasites := 0
    initial_predators := 0
    plant_regeneration := { interval := 5, probability := 3/10, max_plants := 60 }
    reproduction := { food_threshold := 15, larvae_period := 10, larvae_per_cycle := 1 }
    climate :=
      { cycle_length := 25, rain_duration := 10, dry_duration := 15
        rain_effects :=
          { plant_regen_multiplier := 2, predator_spawn_reduction := 1/2
            predator_spawn_increase := 1 }
        dry_effects :=
          { plant_regen_multiplier := 3/10, predator_spawn_reduction := 1
            predator_spawn_increase := 3/2 } }
    predator_balance :=
      { target_ant_predator_ratio := 10, spawn_adjustment_rate := 1/10
        base_spawn_chance := 1/20 }
    parasite_dynamics := { spread_chance := 1/20, infection_radius := 1 } }

/-- Scenario A configuration plus one initial fungus. -/
def cfgOneFungus : SimulationConfig := { cfgScenarioA with initial_fungi := 1 }

/-- A freshly constructed environment holding one ant and one fungus. -/
def envOneFungus : Environment := (initEnvironment cfgOneFungus (rngOf [0, 0, 0, 0])).1

/-- A freshly constructed Scenario A simulation (ant placed at (0,0)). -/
def simScenarioA : Simulation := (mkSimulation cfgScenarioA (rngOf [0, 0])).1

/-- Configuration driving one full reproduction cycle on the first tick:
one ant on one plant, larvae_period 1, food_threshold 10, and zero
regeneration and spawn probabilities. -/
def cfgReproTick : SimulationConfig :=
  { cfgScenarioA with
    initial_plants := 1
    plant_regeneration := { interval := 1, probability := 0, max_plants := 60 }
    reproduction := { food_threshold := 10, larvae_period := 1, larvae_per_cycle := 1 }
    predator_balance :=
      { target_ant_predator_ratio := 10, spawn_adjustment_rate := 1/10
        base_spawn_chance := 0 } }

/-- Reproduction-tick environment: the ant and the plant share cell (0,0). -/
def envReproTick : Environment := (initEnvironment cfgReproTick (rngOf [0, 0, 0, 0])).1

/-- Oracle for the reproduction tick: the ant stays put (direction index
4) and every probability check fails (the checked probabilities are 0). -/
def rngReproTick : Rng := rngOf [4, 0, 0, 0, 0]

/-- Configuration with two ants and two plants, everything else disabled
on the first tick. -/
def cfgTwoAnts : SimulationConfig :=
  { cfgScenarioA with
    initial_ants := 2
    initial_plants := 2
    plant_regeneration := { interval := 3, probability := 3/10, max_plants := 60 }
    reproduction := { food_threshold := 15, larvae_period := 5, larvae_per_cycle := 1 }
    predator_balance :=
      { target_ant_predator_ratio := 10, spawn_adjustment_rate := 1/10
        base_spawn_chance := 0 } }

/-- Two ants and two plants, all at cell (0,0). -/
def envTwoAnts : Environment := (initEnvironment cfgTwoAnts (rngOf [0, 0, 0, 0, 0, 0, 0, 0])).1

/-- Oracle letting both ants stay at (0,0); the spawn check fails. -/
def rngTwoAnts : Rng := rngOf [4, 4, 0]

/-- Scenario A configuration with three ants instead of one, so that the
extinction predicate does not hold at construction. -/
def cfgThreeAnts : SimulationConfig := { cfgScenarioA with initial_ants := 3 }

/-- A running three-ant simulation, one tick away from a successful
Environment.step. -/
def simThreeAnts : Simulation :=
  { (mkSimulation cfgThreeAnts (rngOf [0, 0, 0, 0, 0, 0])).1 with is_running := true }

/-- A fungus whose health was lowered to 0.2 by Fungus.consume (nutrition
10 fungus after consuming 8 units), so that Fungus.update completes. -/
def fLowHealth : Fungus := (Fungus.consume (mkFungus (0, 0)) 8).2

/-- The state fLowHealth reaches after one completed update tick: age and
nutrition moved, health untouched at 0.2. -/
def fLowHealthAfter : Fungus :=
  { position := (0, 0), active := true, nutrition_value := ⟨21, 10⟩, age := 1, max_age := 100
    health := ⟨1, 5⟩ }

/-! ### Spec-side definitions for individual claims -/

/-- Spec formula: target predator count, max(1, ant_count // ratio) with
Python floor division. -/
def targetPredatorCount (ant_count : Nat) (ratio : Q) : Q :=
  qmax 1 (Q.ofInt ((Q.ofNat ant_count / ratio).floor))

/-- Spec formula: the pre-climate spawn multiplier, 1.5 under-supplied,
0.3 over-supplied, 1.0 balanced. -/
def spawnMultiplierPre (predator_count : Nat) (target : Q) : Q :=
  if Q.ofNat predator_count < target then 3/2
  else if target < Q.ofNat predator_count then 3/10
  else 1

/-- Spec formula: the climate factor applied to the spawn multiplier. -/
def climateSpawnFactor (cc : ClimateConfig) (clim : Climate) : Q :=
  if clim = .rain then cc.rain_effects.predator_spawn_reduction
  else cc.dry_effects.predator_spawn_increase

/-- Relation between a fungus before and after the reproduction
consumption pass: untouched, deactivated whole, or partially depleted. -/
def consumedRel (f f' : Fungus) : Prop :=
  f' = f ∨ f' = { f with active := false } ∨
    ∃ c : Q, 0 < c.val ∧ c.val < f.nutrition_value.val ∧
      f' = { f with nutrition_value := f.nutrition_value - c }

/-- Rational value of the total nutrition held by the active fungi of a
list. -/
def activeNutritionSum (fs : List Fungus) : ℚ :=
  (fs.map fun f => if f.active then f.nutrition_value.val else 0).sum

/-- Every ant, plant, parasite and predator of the environment is active
(the fungi are deliberately left out, see claim C4). -/
def allActiveNonFungi (env : Environment) : Prop :=
  (∀ a ∈ env.ants, a.active = true) ∧ (∀ p ∈ env.plants, p.active = true) ∧
    (∀ p ∈ env.parasites, p.active = true) ∧ (∀ p ∈ env.predators, p.active = true)

/-- Rational value of the total nutrition over consumable fungi. -/
def consumableNutritionSum (fs : List Fungus) : ℚ :=
  (fs.map fun f => if f.can_be_consumed then f.nutrition_value.val else 0).sum

/-! ### Fraction value lemmas -/

theorem Q.val_mk (n : ℤ) (d : ℕ) : (Q.mk n d).val = (n : ℚ) / (d : ℚ) := rfl

theorem Q.lit_def (n : ℕ) : (OfNat.ofNat n : Q) = Q.ofNat n := rfl

theorem Q.val_ofNat (n : ℕ) : (Q.ofNat n).val = (n : ℚ) := by
  simp [Q.ofNat, Q.val]

theorem Q.val_ofInt (n : ℤ) : (Q.ofInt n).val = (n : ℚ) := by
  simp [Q.ofInt, Q.val]

theorem Q.wf_ofNat (n : ℕ) : (Q.ofNat n).Wf := Nat.one_pos

theorem Q.wf_ofInt (n : ℤ) : (Q.ofInt n).Wf := Nat.one_pos

theorem Q.zero_def : (0 : Q) = Q.ofNat 0 := rfl

theorem Q.dcast_ne_zero {q : Q} (h : q.Wf) : ((q.d : ℚ)) ≠ 0 := by
  exact_mod_cast h.ne'

theorem Q.add_def (a b : Q) :
    a + b = ⟨a.n * (b.d : ℤ) + b.n * (a.d : ℤ), a.d * b.d⟩ := rfl

theorem Q.sub_def (a b : Q) :
    a - b = ⟨a.n * (b.d : ℤ) - b.n * (a.d : ℤ), a.d * b.d⟩ := rfl

theorem Q.mul_def (a b : Q) : a * b = ⟨a.n * b.n, a.d * b.d⟩ := rfl

theorem Q.div_def (a b : Q) :
    a / b = ⟨a.n * (b.d : ℤ) * b.n.sign, a.d * b.n.natAbs⟩ := rfl

theorem Q.le_def (a b : Q) : a ≤ b ↔ a.n * (b.d : ℤ) ≤ b.n * (a.d : ℤ) := Iff.rfl

theorem Q.lt_def (a b : Q) : a < b ↔ a.n * (b.d : ℤ) < b.n * (a.d : ℤ) := Iff.rfl

theorem Q.wf_add {a b : Q} (ha : a.Wf) (hb : b.Wf) : (a + b).Wf := Nat.mul_pos ha hb

theorem Q.wf_sub {a b : Q} (ha : a.Wf) (hb : b.Wf) : (a - b).Wf := Nat.mul_pos ha hb

theorem Q.wf_mul {a b : Q} (ha : a.Wf) (hb : b.Wf) : (a * b).Wf := Nat.mul_pos ha hb

theorem Q.val_add {a b : Q} (ha : a.Wf) (hb : b.Wf) : (a + b).val = a.val + b.val := by
  have ha' : ((a.d : ℚ)) ≠ 0 := by exact_mod_cast ha.ne'
  have hb' : ((b.d : ℚ)) ≠ 0 := by exact_mod_cast hb.ne'
  simp only [Q.add_def, Q.val]
  push_cast
  field_simp
  try ring

theorem Q.val_sub {a b : Q} (ha : a.Wf) (hb : b.Wf) : (a - b).val = a.val - b.val := by
  have ha' : ((a.d : ℚ)) ≠ 0 := by exact_mod_cast ha.ne'
  have hb' : ((b.d : ℚ)) ≠ 0 := by exact_mod_cast hb.ne'
  simp only [Q.sub_def, Q.val]
  push_cast
  field_simp
  try ring

theorem Q.val_mul {a b : Q} (ha : a.Wf) (hb : b.Wf) : (a * b).val = a.val * b.val := by
  have ha' : ((a.d : ℚ)) ≠ 0 := by exact_mod_cast ha.ne'
  have hb' : ((b.d : ℚ)) ≠ 0 := by exact_mod_cast hb.ne'
  simp only [Q.mul_def, Q.val]
  push_cast
  field_simp
  try ring

theorem Q.le_iff_val {a b : Q} (ha : a.Wf) (hb : b.Wf) : a ≤ b ↔ a.val ≤ b.val := by
  have ha' : (0 : ℚ) < (a.d : ℚ) := by exact_mod_cast ha
  have hb' : (0 : ℚ) < (b.d : ℚ) := by exact_mod_cast hb
  rw [Q.le_def, Q.val, Q.val, div_le_div_iff ha' hb']
  exact_mod_cast Iff.rfl

theorem Q.lt_iff_val {a b : Q} (ha : a.Wf) (hb : b.Wf) : a < b ↔ a.val < b.val := by
  have ha' : (0 : ℚ) < (a.d : ℚ) := by exact_mod_cast ha
  have hb' : (0 : ℚ) < (b.d : ℚ) := by exact_mod_cast hb
  rw [Q.lt_def, Q.val, Q.val, div_lt_div_iff ha' hb']
  exact_mod_cast Iff.rfl

theorem Q.val_div {a b : Q} (ha : a.Wf) (hb : b.Wf) (hn : b.n ≠ 0) :
    (a / b).val = a.val / b.val := by
  have ha' : ((a.d : ℚ)) ≠ 0 := by exact_mod_cast ha.ne'
  have hb' : ((b.d : ℚ)) ≠ 0 := by exact_mod_cast hb.ne'
  have hn' : ((b.n : ℚ)) ≠ 0 := by exact_mod_cast hn
  have habs : ((b.n.natAbs : ℚ)) = |(b.n : ℚ)| := by
    rw [Int.cast_natAbs, Int.cast_abs]
  rcases lt_trichotomy b.n 0 with h | h | h
  · have hs : b.n.sign = -1 := Int.sign_eq_neg_one_iff_neg.mpr h
    have habs2 : ((b.n.natAbs : ℚ)) = -(b.n : ℚ) := by
      rw [habs, abs_of_neg (by exact_mod_cast h)]
    simp only [Q.div_def, Q.val]
    push_cast [hs, habs2]
    field_simp
    try ring
  · exact absurd h hn
  · have hs : b.n.sign = 1 := Int.sign_eq_one_iff_pos.mpr h
    have habs2 : ((b.n.natAbs : ℚ)) = (b.n : ℚ) := by
      rw [habs, abs_of_pos (by exact_mod_cast h)]
    simp only [Q.div_def, Q.val]
    push_cast [hs, habs2]
    field_simp
    try ring

theorem Q.wf_div {a b : Q} (ha : a.Wf) (hn : b.n ≠ 0) : (a / b).Wf :=
  Nat.mul_pos ha (Int.natAbs_pos.mpr hn)

theorem qmin_val {a b : Q} (ha : a.Wf) (hb : b.Wf) :
    (qmin a b).val = min a.val b.val := by
  unfold qmin
  split
  next h => exact (min_eq_left ((Q.le_iff_val ha hb).mp h)).symm
  next h =>
    have h' : b < a := by
      rw [Q.lt_def]
      rw [Q.le_def] at h
      omega
    exact (min_eq_right (le_of_lt ((Q.lt_iff_val hb ha).mp h'))).symm

theorem qmin_wf {a b : Q} (ha : a.Wf) (hb : b.Wf) : (qmin a b).Wf := by
  unfold qmin
  split
  · exact ha
  · exact hb

theorem qmax_val {a b : Q} (ha : a.Wf) (hb : b.Wf) :
    (qmax a b).val = max a.val b.val := by
  unfold qmax
  split
  next h => exact (max_eq_left ((Q.le_iff_val hb ha).mp h)).symm
  next h =>
    have h' : a < b := by
      rw [Q.lt_def]
      rw [Q.le_def] at h
      omega
    exact (max_eq_right (le_of_lt ((Q.lt_iff_val ha hb).mp h'))).symm

theorem qmax_wf {a b : Q} (ha : a.Wf) (hb : b.Wf) : (qmax a b).Wf := by
  unfold qmax
  split
  · exact ha
  · exact hb

/-! ### Inversion of a successful tick -/

/-- Decomposition of a successful Environment.step call into its seven
phases, naming every intermediate value. -/
theorem step_ok_fields {env : Environment} {r : Rng} {env' : Environment} {r' : Rng}
    (h : env.step r = Except.ok (env', r')) :
    ∃ pops0 r0,
      update_entities env.grid_size env.config.parasite_dynamics.spread_chance
          ⟨env.ants, env.plants, env.fungi, env.parasites, env.predators⟩ r =
        Except.ok (pops0, r0) ∧
      env'.config = env.config ∧
      env'.step_count = env.step_count + 1 ∧
      env'.current_climate =
        (update_climate env.config.climate env.current_climate env.climate_timer).1 ∧
      env'.climate_timer =
        (update_climate env.config.climate env.current_climate env.climate_timer).2 ∧
      env'.plants =
        (plant_regeneration env.config.plant_regeneration env.config.climate
          (update_climate env.config.climate env.current_climate env.climate_timer).1
          env.grid_size (env.step_count + 1) (cleanup_entities pops0) r0).1 ∧
      env'.parasites = (cleanup_entities pops0).parasites ∧
      env'.fungi =
        (ant_reproduction env.config.reproduction env.grid_size (env.step_count + 1)
          { cleanup_entities pops0 with
              plants := (plant_regeneration env.config.plant_regeneration env.config.climate
                (update_climate env.config.climate env.current_climate env.climate_timer).1
                env.grid_size (env.step_count + 1) (cleanup_entities pops0) r0).1 }
          (plant_regeneration env.config.plant_regeneration env.config.climate
            (update_climate env.config.climate env.current_climate env.climate_timer).1
            env.grid_size (env.step_count + 1) (cleanup_entities pops0) r0).2).1 ∧
      env'.ants =
        (ant_reproduction env.config.reproduction env.grid_size (env.step_count + 1)
          { cleanup_entities pops0 with
              plants := (plant_regeneration env.config.plant_regeneration env.config.climate
                (update_climate env.config.climate env.current_climate env.climate_timer).1
                env.grid_size (env.step_count + 1) (cleanup_entities pops0) r0).1 }
          (plant_regeneration env.config.plant_regeneration env.config.climate
            (update_climate env.config.climate env.current_climate env.climate_timer).1
            env.grid_size (env.step_count + 1) (cleanup_entities pops0) r0).2).2.1 ∧
      env'.predators =
        (predator_spawning env.config.predator_balance env.config.climate
          (update_climate env.config.climate env.current_climate env.climate_timer).1
          env.grid_size
          (ant_reproduction env.config.reproduction env.grid_size (env.step_count + 1)
            { cleanup_entities pops0 with
                plants := (plant_regeneration env.config.plant_regeneration env.config.climate
                  (update_climate env.config.climate env.current_climate env.climate_timer).1
                  env.grid_size (env.step_count + 1) (cleanup_entities pops0) r0).1 }
            (plant_regeneration env.config.plant_regeneration env.config.climate
              (update_climate env.config.climate env.current_climate env.climate_timer).1
              env.grid_size (env.step_count + 1) (cleanup_entities pops0) r0).2).2.1.length
          (cleanup_entities pops0).predators
          (ant_reproduction env.config.reproduction env.grid_size (env.step_count + 1)
            { cleanup_entities pops0 with
                plants := (plant_regeneration env.config.plant_regeneration env.config.climate
                  (update_climate env.config.climate env.current_climate env.climate_timer).1
                  env.grid_size (env.step_count + 1) (cleanup_entities pops0) r0).1 }
            (plant_regeneration env.config.plant_regeneration env.config.climate
              (update_climate env.config.climate env.current_climate env.climate_timer).1
              env.grid_size (env.step_count + 1) (cleanup_entities pops0) r0).2).2.2).1 := by
  unfold Environment.step at h
  split at h
  · exact absurd h (by simp)
  · next pops0 r0 heq =>
    simp only [Except.ok.injEq, Prod.mk.injEq] at h
    obtain ⟨h1, h2⟩ := h
    subst h1
    exact ⟨pops0, r0, heq, rfl, rfl, rfl, rfl, rfl, rfl, rfl, rfl, rfl⟩

/-- Closed form of Environment._update_climate: toggle and reset exactly
when the incremented timer reaches the cycle length. -/
theorem update_climate_eq (cc : ClimateConfig) (clim : Climate) (t : Nat) :
    update_climate cc clim t =
      (if cc.cycle_length ≤ t + 1 then toggleClimate clim else clim,
        if cc.cycle_length ≤ t + 1 then 0 else t + 1) := by
  by_cases h : cc.cycle_length ≤ t + 1 <;>
    cases clim <;> simp [update_climate, toggleClimate, h]

/-! ### Claim C9 -/

/-- C9: each tick increments the climate timer; exactly when the
incremented timer reaches cycle_length, the climate toggles RAIN-DRY and
the timer resets to 0; the transition rule reads only cycle_length,
never rain_duration or dry_duration; the timer starts at 0 and on every
successful tick stays below cycle_length, resetting to 0 on every
climate transition. -/
theorem C9_climate_cycle :
    (∀ (cc : ClimateConfig) (clim : Climate) (t : Nat),
        update_climate cc clim t =
          (if cc.cycle_length ≤ t + 1 then toggleClimate clim else clim,
            if cc.cycle_length ≤ t + 1 then 0 else t + 1)) ∧
    (∀ (cc cc' : ClimateConfig) (clim : Climate) (t : Nat),
        cc.cycle_length = cc'.cycle_length →
        update_climate cc clim t = update_climate cc' clim t) ∧
    (∀ (cfg : SimulationConfig) (r : Rng), (initEnvironment cfg r).1.climate_timer = 0) ∧
    (∀ (env : Environment) (r : Rng) (env' : Environment) (r' : Rng),
        env.step r = Except.ok (env', r') →
        (env'.current_climate ≠ env.current_climate → env'.climate_timer = 0) ∧
        (env.climate_timer < env.config.climate.cycle_length →
          env'.climate_timer < env.config.climate.cycle_length)) := by
  refine ⟨update_climate_eq, ?_, ?_, ?_⟩
  · intro cc cc' clim t h
    unfold update_climate
    rw [h]
  · intro cfg r
    rfl
  · intro env r env' r' h
    obtain ⟨pops0, r0, -, -, -, hclim, htimer, -⟩ := step_ok_fields h
    rw [update_climate_eq] at hclim htimer
    constructor
    · intro hne
      rw [htimer]
      by_cases hc : env.config.climate.cycle_length ≤ env.climate_timer + 1
      · simp [hc]
      · exfalso
        apply hne
        rw [hclim]
        simp [hc]
    · intro hlt
      rw [htimer]
      by_cases hc : env.config.climate.cycle_length ≤ env.climate_timer + 1 <;>
        simp [hc] <;> omega

/-- C9 witness: the climate equations at a concrete configuration and a
concrete successful tick (scenario A config with three ants). -/
theorem C9_witness :
    update_climate cfgScenarioA.climate Climate.dry 24 = (Climate.rain, 0) ∧
    update_climate cfgScenarioA.climate Climate.dry 3 = (Climate.dry, 4) := by
  have h := C9_climate_cycle.1
  rw [h cfgScenarioA.climate Climate.dry 24, h cfgScenarioA.climate Climate.dry 3]
  exact ⟨by decide, by decide⟩

/-! ### Claim C5 -/

/-- C5: the extinction predicate holds iff ants == 0 or
ants + plants + fungi < 3; once a state satisfies it, neither run nor
step_once ever advances the Environment by a tick (the state, step
counter and oracle are left untouched and the run loop yields no further
grid); and when it does not hold (budget remaining, running), step_once
performs exactly one Environment.step. -/
theorem C5_extinction_stops_ticks :
    (∀ env : Environment, check_extinction env = true ↔
        (env.ants.length = 0 ∨ env.ants.length + env.plants.length + env.fungi.length < 3)) ∧
    (∀ (sim : Simulation) (r : Rng), check_extinction sim.environment = true →
        ∃ g sim', step_once sim r = Except.ok (g, sim', r) ∧
          sim'.environment = sim.environment ∧ sim'.current_step = sim.current_step) ∧
    (∀ (max_steps fuel : Nat) (sim : Simulation) (r : Rng),
        check_extinction sim.environment = true →
        runLoop max_steps fuel sim r = Except.ok (sim, r, [])) ∧
    (∀ (sim : Simulation) (r : Rng) (env' : Environment) (r' : Rng),
        sim.is_running = true →
        sim.current_step < sim.config.simulation_steps →
        check_extinction sim.environment = false →
        sim.environment.step r = Except.ok (env', r') →
        step_once sim r = Except.ok (render_grid env',
          { sim with environment := env', current_step := sim.current_step + 1 }, r')) := by
  refine ⟨?_, ?_, ?_, ?_⟩
  · intro env
    unfold check_extinction
    split
    next h => simp [h]
    next h =>
      split
      next h2 => simp [h, h2]
      next h2 => simp [h, h2]
  · intro sim r h
    by_cases hr : sim.is_running
    · exact ⟨render_grid sim.environment, sim, by simp [step_once, hr, h], rfl, rfl⟩
    · exact ⟨render_grid sim.environment, { sim with is_running := true },
        by simp [step_once, hr, h], rfl, rfl⟩
  · intro ms fuel sim r h
    cases fuel with
    | zero => rfl
    | succ fuel => simp [runLoop, h]
  · intro sim r env' r' hr hb hx hstep
    simp [step_once, hr, hb, hx, hstep]

/-- C5 witness: Scenario A starts extinct (1 ant, nothing else), so the
run loop yields no tick and step_once leaves the state alone; a
three-ant simulation is not extinct and its step_once performs one
Environment.step. -/
theorem C5_witness :
    runLoop 100 100 simScenarioA (rngOf []) = Except.ok (simScenarioA, rngOf [], []) ∧
    (∃ g sim', step_once simScenarioA (rngOf []) = Except.ok (g, sim', rngOf []) ∧
      sim'.environment = simScenarioA.environment ∧
      sim'.current_step = simScenarioA.current_step) ∧
    (∃ env' r', simThreeAnts.environment.step (rngOf [4, 4, 4, 0]) = Except.ok (env', r') ∧
      step_once simThreeAnts (rngOf [4, 4, 4, 0]) =
        Except.ok (render_grid env',
          { simThreeAnts with environment := env'
                              current_step := simThreeAnts.current_step + 1 }, r')) := by
  refine ⟨?_, ?_, ?_⟩
  · exact C5_extinction_stops_ticks.2.2.1 100 100 simScenarioA (rngOf []) (by decide)
  · exact C5_extinction_stops_ticks.2.1 simScenarioA (rngOf []) (by decide)
  · refine ⟨_, _, rfl, ?_⟩
    exact C5_extinction_stops_ticks.2.2.2 simThreeAnts (rngOf [4, 4, 4, 0]) _ _ rfl
      (by decide) (by decide) rfl

/-! ### Claim C7 -/

/-- C7: predator spawning is skipped entirely at ant count 0 (no oracle
draw, no change); otherwise the spawn probability is base_spawn_chance
times the pre-climate multiplier (1.5 under target, 0.3 over target, 1.0
at balance, with target = max(1, ants // ratio) by floor division)
times the climate factor (rain reduction or dry increase), and on a
successful check exactly one default predator is appended at the cell
given by two uniform draws, with no occupancy check; in particular at
100 ants, 0 predators and ratio 10 the target is 10 and the pre-climate
multiplier is 1.5. -/
theorem C7_predator_spawning :
    (∀ (pb : PredatorBalanceConfig) (cc : ClimateConfig) (clim : Climate) (gs : Nat)
        (preds : List Predator) (r : Rng),
        predator_spawning pb cc clim gs 0 preds r = (preds, r)) ∧
    (∀ (pb : PredatorBalanceConfig) (cc : ClimateConfig) (clim : Climate) (gs na : Nat)
        (preds : List Predator) (r : Rng), na ≠ 0 →
        (probability_check r.next.1
            (pb.base_spawn_chance *
              (spawnMultiplierPre preds.length
                  (targetPredatorCount na pb.target_ant_predator_ratio) *
                climateSpawnFactor cc clim)) = true →
          predator_spawning pb cc clim gs na preds r =
            (preds ++ [mkPredator ((natDraw r.next.2.next.1 gs : ℤ),
                (natDraw r.next.2.next.2.next.1 gs : ℤ))], r.next.2.next.2.next.2)) ∧
        (probability_check r.next.1
            (pb.base_spawn_chance *
              (spawnMultiplierPre preds.length
                  (targetPredatorCount na pb.target_ant_predator_ratio) *
                climateSpawnFactor cc clim)) = false →
          predator_spawning pb cc clim gs na preds r = (preds, r.next.2))) ∧
    (targetPredatorCount 100 10 = 10 ∧
      spawnMultiplierPre 0 (targetPredatorCount 100 10) = 3/2) := by
  refine ⟨?_, ?_, by decide, by decide⟩
  · intro pb cc clim gs preds r
    simp [predator_spawning]
  · intro pb cc clim gs na preds r hna
    constructor <;> intro hpc <;>
      cases clim <;>
        simp_all [predator_spawning, spawnMultiplierPre, targetPredatorCount,
          climateSpawnFactor, Rng.next]

/-- C7 witness: with the scenario A configuration under a dry climate,
100 ants, no predators and an all-zero oracle, the check succeeds (the
chance is 1/20 times 1.5 times 1.5) and one predator appears at (0,0);
with 0 ants nothing happens. -/
theorem C7_witness :
    predator_spawning cfgScenarioA.predator_balance cfgScenarioA.climate Climate.dry 5 100 []
        (rngOf [0, 0, 0]) =
      ([] ++ [mkPredator ((natDraw (rngOf [0, 0, 0]).next.2.next.1 5 : ℤ),
          (natDraw (rngOf [0, 0, 0]).next.2.next.2.next.1 5 : ℤ))],
        (rngOf [0, 0, 0]).next.2.next.2.next.2) ∧
    predator_spawning cfgScenarioA.predator_balance cfgScenarioA.climate Climate.dry 5 0 []
        (rngOf []) = ([], rngOf []) := by
  constructor
  · exact (C7_predator_spawning.2.1 cfgScenarioA.predator_balance cfgScenarioA.climate
      Climate.dry 5 100 [] (rngOf [0, 0, 0]) (by decide)).1 (by decide)
  · exact C7_predator_spawning.1 cfgScenarioA.predator_balance cfgScenarioA.climate
      Climate.dry 5 [] (rngOf [])

/-! ### Claim C1 -/

/-- C1: the claim states that every Environment.step call on a reachable
state completes without a runtime error, the fungus parasite-suppression
branch included, which requires Environment to provide the
get_nearby_entities query.  The code provides no such attribute: on the
freshly constructed environment holding one ant and one fungus (health
1.0 > 0.4), the very first step raises AttributeError, whatever the
random outcome. -/
theorem C1_step_raises_attribute_error :
    ∀ r : Rng, envOneFungus.step r = Except.error getNearbyEntitiesError := by
  intro r
  rfl

/-! ### Claim C3 -/

/-- C3: the claim states that each fungus update recomputes health as
max(0.2, nutrition/10) and then suppresses nearby parasites when health
exceeds 0.4.  In the code, a fresh fungus (health 1.0) raises
AttributeError instead of suppressing, and a low-health fungus that does
complete its update keeps its previous health 0.2 while its nutrition
grows to 2.1, so health differs from max(0.2, nutrition/10) = 0.21:
Fungus.update never recomputes health (only Fungus.consume assigns the
formula). -/
theorem C3_update_breaks_health_formula :
    Fungus.update (mkFungus (0, 0)) = Except.error getNearbyEntitiesError ∧
      Fungus.update fLowHealth = Except.ok fLowHealthAfter ∧
      fLowHealthAfter.health.val ≠ max (1/5 : ℚ) (fLowHealthAfter.nutrition_value.val / 10) := by
  refine ⟨rfl, rfl, ?_⟩
  norm_num [fLowHealthAfter, Q.val]

/-! ### Claim C2 -/

/-- C2 counterexample: with grid_size 5, one initial ant and every other
population 0, the extinction predicate (1 + 0 + 0 < 3) already holds at
construction, so step_once takes no tick and current_step stays 0, not 1
as the claim states. -/
theorem C2_counterexample_current_step :
    ∃ g sim' r', step_once simScenarioA (rngOf []) = Except.ok (g, sim', r') ∧
      sim'.current_step ≠ 1 := by
  exact ⟨_, _, _, rfl, by decide⟩

/-- Rendering a single active ant on the empty 5x5 grid yields exactly
one non-empty cell, wherever the ant sits. -/
theorem countNonEmpty_one_ant :
    ∀ a, a < 5 → ∀ b, b < 5 →
      countNonEmpty (setCell (List.replicate 5 (List.replicate 5 Tile.empty))
        ((a : ℕ) : ℤ) ((b : ℕ) : ℤ) Tile.ant) = 1 := by
  decide

/-- C2 amended: with grid_size 5, one initial ant and every other
population 0, one step_once call returns successfully with the ant count
still 1 and exactly one non-empty grid cell, but with current_step equal
to 0: the initial state already satisfies the extinction predicate
(1 + 0 + 0 < 3), so no tick is taken, for every random placement. -/
theorem C2_amended_no_tick (r : Rng) :
    ∃ g sim' r', step_once (mkSimulation cfgScenarioA r).1 (mkSimulation cfgScenarioA r).2 =
        Except.ok (g, sim', r') ∧
      sim'.current_step = 0 ∧ sim'.environment.ants.length = 1 ∧ countNonEmpty g = 1 := by
  refine ⟨_, _, _, rfl, rfl, rfl, ?_⟩
  have hg : render_grid (mkSimulation cfgScenarioA r).1.environment =
      setCell (List.replicate 5 (List.replicate 5 Tile.empty))
        ((natDraw (r.vals r.idx) 5 : ℕ) : ℤ)
        ((natDraw (r.vals (r.idx + 1)) 5 : ℕ) : ℤ) Tile.ant := rfl
  show countNonEmpty (render_grid (mkSimulation cfgScenarioA r).1.environment) = 1
  rw [hg]
  exact countNonEmpty_one_ant _ (Nat.mod_lt _ (by norm_num)) _ (Nat.mod_lt _ (by norm_num))

/-! ### Claim C4 -/

/-- C4 counterexample: on a reproduction tick the consumption pass of
_ant_reproduction deactivates a fully consumed fungus after the cleanup
phase has already run, so the tick ends - and the next tick begins - with
an inactive fungus still inside the fungus collection. -/
theorem C4_counterexample_inactive_fungus :
    ∃ e r', envReproTick.step rngReproTick = Except.ok (e, r') ∧
      e.fungi.map (fun f => f.active) = [false] := by
  exact ⟨_, _, rfl, rfl⟩

/-! ### Claim C6 -/

/-- C6 counterexample: at 100 ants the overpopulation penalty
min(0.5, 40/60) caps at 0.5, so the population health equals exactly 0.5;
it is not strictly between 0.5 and 1.0 as the claim states. -/
theorem C6_counterexample_at_100 :
    ¬ (1/2 < (calculate_population_health 100).val ∧
        (calculate_population_health 100).val < 1) := by
  have h : calculate_population_health 100 = ⟨1, 2⟩ := by decide
  rw [h]
  norm_num [Q.val]

/-- C2 amended witness: the amended statement at a concrete oracle. -/
theorem C2_amended_witness :
    ∃ g sim' r',
      step_once (mkSimulation cfgScenarioA (rngOf [0, 0])).1
          (mkSimulation cfgScenarioA (rngOf [0, 0])).2 = Except.ok (g, sim', r') ∧
        sim'.current_step = 0 ∧ sim'.environment.ants.length = 1 ∧ countNonEmpty g = 1 :=
  C2_amended_no_tick (rngOf [0, 0])

/-- The placement search only ever appends a freshly constructed
(hence active) plant. -/
theorem placeLoop_mem (gs : Nat) (occ : List Pos) :
    ∀ (fuel : Nat) (plants : List Plant) (r : Rng),
      ∀ p ∈ (placeLoop gs occ fuel plants r).1, p ∈ plants ∨ p.active = true := by
  intro fuel
  induction fuel with
  | zero => exact fun plants r p hp => Or.inl hp
  | succ k ih =>
    intro plants r p hp
    simp only [placeLoop] at hp
    split at hp
    · exact ih _ _ p hp
    · rcases List.mem_append.mp hp with h | h
      · exact Or.inl h
      · right
        rw [List.mem_singleton.mp h]
        rfl

/-- Plant regeneration only ever appends a freshly constructed plant. -/
theorem plant_regeneration_mem (prc : PlantRegenerationConfig) (cc : ClimateConfig)
    (clim : Climate) (gs sc : Nat) (pops : Pops) (r : Rng) :
    ∀ p ∈ (plant_regeneration prc cc clim gs sc pops r).1,
      p ∈ pops.plants ∨ p.active = true := by
  intro p hp
  simp only [plant_regeneration] at hp
  split at hp
  · exact Or.inl hp
  split at hp
  · exact Or.inl hp
  split at hp <;> split at hp <;>
    first
      | exact placeLoop_mem _ _ _ _ _ p hp
      | exact Or.inl hp

/-- The reproduction loop only ever appends freshly constructed ants. -/
theorem addAnts_mem (gs : Nat) (plants : List Plant) (fungi : List Fungus)
    (parasites : List Parasite) (predators : List Predator) :
    ∀ (k : Nat) (ants : List Ant) (r : Rng),
      ∀ a ∈ (addAnts gs plants fungi parasites predators k ants r).1,
        a ∈ ants ∨ a.active = true := by
  intro k
  induction k with
  | zero => exact fun ants r a ha => Or.inl ha
  | succ k ih =>
    intro ants r a ha
    simp only [addAnts] at ha
    rcases ih _ _ a ha with h | h
    · rcases List.mem_append.mp h with h1 | h1
      · exact Or.inl h1
      · right
        rw [List.mem_singleton.mp h1]
        rfl
    · exact Or.inr h

/-- The reproduction loop adds exactly one ant per iteration. -/
theorem addAnts_length (gs : Nat) (plants : List Plant) (fungi : List Fungus)
    (parasites : List Parasite) (predators : List Predator) :
    ∀ (k : Nat) (ants : List Ant) (r : Rng),
      (addAnts gs plants fungi parasites predators k ants r).1.length = ants.length + k := by
  intro k
  induction k with
  | zero => exact fun ants r => rfl
  | succ k ih =>
    intro ants r
    simp only [addAnts]
    rw [ih]
    simp
    omega

/-- Ant reproduction returns the previous ants plus freshly constructed
ones. -/
theorem ant_reproduction_ants_mem (rc : ReproductionConfig) (gs sc : Nat) (pops : Pops)
    (r : Rng) :
    ∀ a ∈ (ant_reproduction rc gs sc pops r).2.1, a ∈ pops.ants ∨ a.active = true := by
  intro a ha
  simp only [ant_reproduction] at ha
  split at ha
  · exact Or.inl ha
  split at ha
  · exact addAnts_mem _ _ _ _ _ _ _ _ a ha
  · exact Or.inl ha

/-- Predator spawning returns the previous predators plus possibly one
freshly constructed predator. -/
theorem predator_spawning_mem (pb : PredatorBalanceConfig) (cc : ClimateConfig)
    (clim : Climate) (gs na : Nat) (preds : List Predator) (r : Rng) :
    ∀ p ∈ (predator_spawning pb cc clim gs na preds r).1,
      p ∈ preds ∨ p.active = true := by
  intro p hp
  simp only [predator_spawning] at hp
  split at hp
  · exact Or.inl hp
  · repeat' split at hp
    all_goals
      first
        | exact Or.inl hp
        | (rcases List.mem_append.mp hp with h | h
           · exact Or.inl h
           · exact Or.inr (by rw [List.mem_singleton.mp h]; rfl))

/-- C4 amended: a successful tick ends - and hence the next tick begins -
with every ant, plant, parasite and predator in the collections active;
only fungi can be left inactive (by the reproduction phase, see the C4
counterexample). -/
theorem C4_amended_non_fungi_active :
    ∀ (env : Environment) (r : Rng) (env' : Environment) (r' : Rng),
      env.step r = Except.ok (env', r') → allActiveNonFungi env' := by
  intro env r env' r' h
  obtain ⟨pops0, r0, -, -, -, -, -, hplants, hparas, -, hants, hpreds⟩ := step_ok_fields h
  refine ⟨?_, ?_, ?_, ?_⟩
  · intro a ha
    rw [hants] at ha
    rcases ant_reproduction_ants_mem _ _ _ _ _ a ha with h1 | h1
    · exact (List.mem_filter.mp h1).2
    · exact h1
  · intro p hp
    rw [hplants] at hp
    rcases plant_regeneration_mem _ _ _ _ _ _ _ p hp with h1 | h1
    · exact (List.mem_filter.mp h1).2
    · exact h1
  · intro p hp
    rw [hparas] at hp
    exact (List.mem_filter.mp hp).2
  · intro p hp
    rw [hpreds] at hp
    rcases predator_spawning_mem _ _ _ _ _ _ _ p hp with h1 | h1
    · exact (List.mem_filter.mp h1).2
    · exact h1

/-- C4 amended witness: the reproduction-tick step succeeds and leaves
all non-fungus collections active. -/
theorem C4_amended_witness :
    ∃ e r', envReproTick.step rngReproTick = Except.ok (e, r') ∧ allActiveNonFungi e := by
  refine ⟨_, _, rfl, ?_⟩
  exact C4_amended_non_fungi_active envReproTick rngReproTick _ _ rfl

/-- C6 amended: the population health component is 0 at 0 ants, n/20
below 20 ants, exactly 1 on [20,60], and 1 - min(0.5, (n-60)/60) above
60 so that it never drops below 0.5; it is 1 at 40 ants and exactly 0.5
at 100 ants. -/
theorem C6_amended_population_health :
    (calculate_population_health 0).val = 0 ∧
    (∀ n : ℕ, n ≠ 0 → n < 20 → (calculate_population_health n).val = (n : ℚ) / 20) ∧
    (∀ n : ℕ, 20 ≤ n → n ≤ 60 → (calculate_population_health n).val = 1) ∧
    (∀ n : ℕ, 60 < n →
        (calculate_population_health n).val = 1 - min (1/2 : ℚ) (((n : ℚ) - 60) / 60) ∧
        1/2 ≤ (calculate_population_health n).val) ∧
    (calculate_population_health 40).val = 1 ∧
    (calculate_population_health 100).val = 1/2 := by
  refine ⟨?_, ?_, ?_, ?_, ?_, ?_⟩
  · unfold calculate_population_health
    rw [if_pos rfl]
    simp [Q.lit_def, Q.val_ofNat]
  · intro n h1 h2
    unfold calculate_population_health
    rw [if_neg h1, if_pos h2]
    simp only [Q.lit_def]
    rw [Q.val_div (Q.wf_ofNat n) (Q.wf_ofNat 20) (by decide), Q.val_ofNat, Q.val_ofNat]
    norm_num
  · intro n h1 h2
    unfold calculate_population_health
    rw [if_neg (by omega : ¬ n = 0), if_neg (by omega : ¬ n < 20), if_pos h2]
    simp [Q.lit_def, Q.val_ofNat]
  · intro n h
    have wsub : (Q.ofNat n - Q.ofNat 60).Wf := Q.wf_sub (Q.wf_ofNat n) (Q.wf_ofNat 60)
    have wdiv : ((Q.ofNat n - Q.ofNat 60) / Q.ofNat 60).Wf := Q.wf_div wsub (by decide)
    have whalf : (Q.ofNat 1 / Q.ofNat 2).Wf := Q.wf_div (Q.wf_ofNat 1) (by decide)
    have hmain : (calculate_population_health n).val =
        1 - min (1/2 : ℚ) (((n : ℚ) - 60) / 60) := by
      unfold calculate_population_health
      rw [if_neg (by omega : ¬ n = 0), if_neg (by omega : ¬ n < 20),
        if_neg (by omega : ¬ n ≤ 60)]
      simp only [Q.lit_def]
      rw [Q.val_sub (Q.wf_ofNat 1) (qmin_wf whalf wdiv), qmin_val whalf wdiv,
        Q.val_div wsub (Q.wf_ofNat 60) (by decide),
        Q.val_sub (Q.wf_ofNat n) (Q.wf_ofNat 60),
        Q.val_div (Q.wf_ofNat 1) (Q.wf_ofNat 2) (by decide),
        Q.val_ofNat, Q.val_ofNat, Q.val_ofNat, Q.val_ofNat]
      norm_num
    refine ⟨hmain, ?_⟩
    rw [hmain]
    have := min_le_left (1/2 : ℚ) (((n : ℚ) - 60) / 60)
    linarith
  · have h40 : calculate_population_health 40 = Q.ofNat 1 := by decide
    rw [h40, Q.val_ofNat]
    norm_num
  · have h100 : calculate_population_health 100 = ⟨1, 2⟩ := by decide
    rw [h100]
    norm_num [Q.val]

/-- C6 amended witness: the ramp at 10 ants and the capped penalty band
at 70 and at 100 ants. -/
theorem C6_amended_witness :
    (calculate_population_health 10).val = (10 : ℚ) / 20 ∧
    (calculate_population_health 70).val = 1 - min (1/2 : ℚ) (((70 : ℚ) - 60) / 60) ∧
    1/2 ≤ (calculate_population_health 70).val ∧
    (calculate_population_health 100).val = 1/2 :=
  ⟨C6_amended_population_health.2.1 10 (by decide) (by decide),
    (C6_amended_population_health.2.2.2.1 70 (by decide)).1,
    (C6_amended_population_health.2.2.2.1 70 (by decide)).2,
    C6_amended_population_health.2.2.2.2.2⟩

/-! ### Claim C10 -/

/-- C10 counterexample: two ants and two plants all share cell (0,0); the
first ant deactivates the first plant and leaves a fungus, then the second
ant - facing an active plant at its cell - deactivates the already
inactive first plant again (the source picks the first plant at the
position with no active filter) and adds a second fungus, so the active
plant survives the tick even though the claim says the first active plant
at the cell is deactivated. -/
theorem C10_counterexample_active_plant_survives :
    ∃ e r', envTwoAnts.step rngTwoAnts = Except.ok (e, r') ∧
      e.plants.map (fun p => (p.active, p.position)) = [(true, ((0 : ℤ), (0 : ℤ)))] ∧
      e.fungi.length = 2 := by
  exact ⟨_, _, rfl, by decide⟩

/-- C10 amended: after the move of an ant, if no plant occupies its cell the
interaction is a no-op; if any plant - active or not, mature or not -
occupies the cell, the first plant at the cell in list order is
deactivated (even when it is already inactive, in which case an active
plant at the same cell survives) and a fresh default fungus with
nutrition_value 10.0, immediately consumable, is appended; no maturity
or can_be_harvested condition is ever consulted. -/
theorem C10_amended_interact :
    (∀ (pos : Pos) (plants : List Plant) (fungi : List Fungus),
        plants.findIdx? (fun p => decide (p.position = pos)) = none →
        Ant.interact_with_environment pos plants fungi = (plants, fungi)) ∧
    (∀ (pos : Pos) (plants : List Plant) (fungi : List Fungus) (i : Nat),
        plants.findIdx? (fun p => decide (p.position = pos)) = some i →
        Ant.interact_with_environment pos plants fungi =
          (plants.set i { plants.getD i (mkPlant (0, 0)) with active := false },
            fungi ++ [mkFungus pos])) ∧
    (∀ pos : Pos, (mkFungus pos).can_be_consumed = true ∧
      (mkFungus pos).nutrition_value = 10) := by
  refine ⟨?_, ?_, fun pos => ⟨rfl, rfl⟩⟩
  · intro pos plants fungi h
    unfold Ant.interact_with_environment
    rw [h]
  · intro pos plants fungi i h
    unfold Ant.interact_with_environment
    rw [h]

/-- From a failed Q comparison to a strict one. -/
theorem Q.lt_of_not_le {a b : Q} (h : ¬ a ≤ b) : b < a := by
  rw [Q.lt_def]
  rw [Q.le_def] at h
  omega

/-- Folding the fraction sum preserves well-formedness and computes the
rational sum. -/
theorem qsum_val_wf : ∀ l : List Q, (∀ x ∈ l, x.Wf) →
    (qsum l).Wf ∧ (qsum l).val = (l.map Q.val).sum := by
  suffices h : ∀ (l : List Q) (acc : Q), (∀ x ∈ l, x.Wf) → acc.Wf →
      (l.foldl (· + ·) acc).Wf ∧
        (l.foldl (· + ·) acc).val = acc.val + (l.map Q.val).sum by
    intro l hl
    have h0 := h l 0 hl (by decide)
    refine ⟨h0.1, ?_⟩
    rw [qsum, h0.2]
    simp [Q.lit_def, Q.val_ofNat]
  intro l
  induction l with
  | nil =>
    intro acc h hacc
    exact ⟨hacc, by simp⟩
  | cons x xs ih =>
    intro acc h hacc
    have hx : x.Wf := h x (List.mem_cons_self _ _)
    have hxs : ∀ y ∈ xs, y.Wf := fun y hy => h y (List.mem_cons_of_mem _ hy)
    obtain ⟨w, v⟩ := ih (acc + x) hxs (Q.wf_add hacc hx)
    refine ⟨w, ?_⟩
    rw [List.foldl_cons, v, Q.val_add hacc hx]
    simp
    ring

/-- The fungus consumability test, at the value level. -/
theorem can_be_consumed_val {f : Fungus} (hwf : f.nutrition_value.Wf) :
    f.can_be_consumed = true ↔ 5 < f.nutrition_value.val := by
  unfold Fungus.can_be_consumed
  rw [decide_eq_true_eq, Q.lt_iff_val (by decide) hwf]
  simp [Q.lit_def, Q.val_ofNat]

/-- The Q-valued nutrition total of _ant_reproduction equals the
rational consumable sum. -/
theorem consumableSum_val (fs : List Fungus) (hwf : ∀ f ∈ fs, f.nutrition_value.Wf) :
    (consumableSum fs).Wf ∧ (consumableSum fs).val = consumableNutritionSum fs := by
  have helem : ∀ x ∈ (fs.map fun f => if f.can_be_consumed then f.nutrition_value else 0),
      x.Wf := by
    intro x hx
    rcases List.mem_map.mp hx with ⟨f, hf, rfl⟩
    split
    · exact hwf f hf
    · decide
  obtain ⟨w, v⟩ := qsum_val_wf _ helem
  refine ⟨w, ?_⟩
  rw [consumableSum, v]
  unfold consumableNutritionSum
  rw [List.map_map]
  congr 1
  apply List.map_congr_left
  intro f hf
  by_cases hc : f.can_be_consumed = true <;>
    simp [hc, Function.comp, Q.lit_def, Q.val_ofNat]

/-- The consumable sum is nonnegative. -/
theorem consumableNutritionSum_nonneg (fs : List Fungus)
    (hwf : ∀ f ∈ fs, f.nutrition_value.Wf) : 0 ≤ consumableNutritionSum fs := by
  unfold consumableNutritionSum
  apply List.sum_nonneg
  intro x hx
  rcases List.mem_map.mp hx with ⟨f, hf, rfl⟩
  split
  next hc =>
    have := (can_be_consumed_val (hwf f hf)).mp hc
    linarith
  · exact le_refl 0

theorem consumableNutritionSum_cons (f : Fungus) (fs : List Fungus) :
    consumableNutritionSum (f :: fs) =
      (if f.can_be_consumed then f.nutrition_value.val else 0) + consumableNutritionSum fs := by
  by_cases hc : f.can_be_consumed = true <;> simp [consumableNutritionSum, hc]

theorem activeNutritionSum_cons (f : Fungus) (fs : List Fungus) :
    activeNutritionSum (f :: fs) =
      (if f.active = true then f.nutrition_value.val else 0) + activeNutritionSum fs := by
  by_cases ha : f.active = true <;> simp [activeNutritionSum, ha]

/-- The consumed relation is reflexive (the untouched case). -/
theorem forall₂_consumedRel_refl : ∀ l : List Fungus, List.Forall₂ consumedRel l l
  | [] => .nil
  | _ :: fs => .cons (Or.inl rfl) (forall₂_consumedRel_refl fs)

/-- Full specification of the consumption loop of _ant_reproduction: the
remaining need, the active nutrition pool, and the per-fungus shape of
the result. -/
theorem consumeLoop_spec :
    ∀ (fs : List Fungus) (needed : Q), needed.Wf → 0 ≤ needed.val →
      (∀ f ∈ fs, f.nutrition_value.Wf) →
      (consumeLoop needed fs).1.val =
          needed.val - min needed.val (consumableNutritionSum fs) ∧
        ((∀ f ∈ fs, f.active = true) →
          activeNutritionSum (consumeLoop needed fs).2 =
            activeNutritionSum fs - (needed.val - (consumeLoop needed fs).1.val)) ∧
        List.Forall₂ consumedRel fs (consumeLoop needed fs).2 := by
  intro fs
  induction fs with
  | nil =>
    intro needed hw h0 hwf
    refine ⟨?_, fun _ => ?_, List.Forall₂.nil⟩
    · rw [show consumableNutritionSum [] = 0 from rfl, min_eq_right h0]
      simp [consumeLoop]
    · simp [consumeLoop]
  | cons f fs ih =>
    intro needed hw h0 hwf
    have hfw : f.nutrition_value.Wf := hwf f (List.mem_cons_self _ _)
    have hfs : ∀ g ∈ fs, g.nutrition_value.Wf :=
      fun g hg => hwf g (List.mem_cons_of_mem _ hg)
    have hSnn : 0 ≤ consumableNutritionSum fs := consumableNutritionSum_nonneg fs hfs
    have hSnn' : 0 ≤ consumableNutritionSum (f :: fs) :=
      consumableNutritionSum_nonneg _ hwf
    simp only [consumeLoop]
    split
    next hle =>
      have h00 : needed.val = 0 := by
        have h1 := (Q.le_iff_val hw (by decide)).mp hle
        simp [Q.lit_def, Q.val_ofNat] at h1
        linarith
      refine ⟨?_, fun _ => by simp, forall₂_consumedRel_refl _⟩
      rw [h00, min_eq_left hSnn']
      ring
    next hgt =>
      have hpos : 0 < needed.val := by
        have h2 := (Q.lt_iff_val (by decide) hw).mp (Q.lt_of_not_le hgt)
        simpa [Q.lit_def, Q.val_ofNat] using h2
      clear hgt
      split
      next hc =>
        have hν : 5 < f.nutrition_value.val := (can_be_consumed_val hfw).mp hc
        have hcw : (qmin needed f.nutrition_value).Wf := qmin_wf hw hfw
        have hcv : (qmin needed f.nutrition_value).val =
            min needed.val f.nutrition_value.val := qmin_val hw hfw
        have hnw : (needed - qmin needed f.nutrition_value).Wf := Q.wf_sub hw hcw
        have hnv : (needed - qmin needed f.nutrition_value).val =
            needed.val - min needed.val f.nutrition_value.val := by
          rw [Q.val_sub hw hcw, hcv]
        have h0' : 0 ≤ (needed - qmin needed f.nutrition_value).val := by
          rw [hnv]
          have := min_le_left needed.val f.nutrition_value.val
          linarith
        obtain ⟨ihf, iha, ihr⟩ := ih (needed - qmin needed f.nutrition_value) hnw h0' hfs
        split
        next hfull =>
          have hfullv : f.nutrition_value.val ≤ min needed.val f.nutrition_value.val := by
            have := (Q.le_iff_val hfw hcw).mp hfull
            rw [hcv] at this
            exact this
          have hmineq : min needed.val f.nutrition_value.val = f.nutrition_value.val := by
            have := min_le_right needed.val f.nutrition_value.val
            linarith
          refine ⟨?_, fun hall => ?_, List.Forall₂.cons (Or.inr (Or.inl rfl)) ihr⟩
          · show (consumeLoop (needed - qmin needed f.nutrition_value) fs).1.val = _
            rw [ihf, hnv, consumableNutritionSum_cons, if_pos hc, hmineq]
            rcases le_total (needed.val - f.nutrition_value.val)
                (consumableNutritionSum fs) with hle2 | hle2
            · rw [min_eq_left hle2, min_eq_left (by linarith)]
              ring
            · rw [min_eq_right hle2, min_eq_right (by linarith)]
              ring
          · have hacf : f.active = true := hall f (List.mem_cons_self _ _)
            have halls : ∀ g ∈ fs, g.active = true :=
              fun g hg => hall g (List.mem_cons_of_mem _ hg)
            show activeNutritionSum ({ f with active := false } ::
                (consumeLoop (needed - qmin needed f.nutrition_value) fs).2) = _
            rw [activeNutritionSum_cons, activeNutritionSum_cons, iha halls]
            show (if false = true then f.nutrition_value.val else 0) + _ = _
            rw [if_neg (by simp), if_pos hacf, ihf, hnv, hmineq]
            ring
        next hpart =>
          have hlt : (qmin needed f.nutrition_value).val < f.nutrition_value.val :=
            (Q.lt_iff_val hcw hfw).mp (Q.lt_of_not_le hpart)
          clear hpart
          have hminlt : min needed.val f.nutrition_value.val < f.nutrition_value.val := by
            rw [← hcv]
            exact hlt
          have hmineq : min needed.val f.nutrition_value.val = needed.val := by
            rcases le_total needed.val f.nutrition_value.val with h | h
            · exact min_eq_left h
            · rw [min_eq_right h] at hminlt
              linarith
          have hneedle : needed.val ≤ f.nutrition_value.val := by
            rcases le_total needed.val f.nutrition_value.val with h | h
            · exact h
            · rw [min_eq_right h] at hminlt
              linarith
          refine ⟨?_, fun hall => ?_, List.Forall₂.cons ?_ ihr⟩
          · show (consumeLoop (needed - qmin needed f.nutrition_value) fs).1.val = _
            rw [ihf, hnv, consumableNutritionSum_cons, if_pos hc, hmineq, sub_self,
              min_eq_left hSnn, min_eq_left (by linarith)]
            ring
          · have hacf : f.active = true := hall f (List.mem_cons_self _ _)
            have halls : ∀ g ∈ fs, g.active = true :=
              fun g hg => hall g (List.mem_cons_of_mem _ hg)
            show activeNutritionSum
                ({ f with nutrition_value :=
                    f.nutrition_value - qmin needed f.nutrition_value } ::
                  (consumeLoop (needed - qmin needed f.nutrition_value) fs).2) = _
            rw [activeNutritionSum_cons, activeNutritionSum_cons, iha halls]
            show (if f.active = true then
                (f.nutrition_value - qmin needed f.nutrition_value).val else 0) + _ = _
            rw [if_pos hacf, if_pos hacf, Q.val_sub hfw hcw, hcv, ihf, hnv, hmineq]
            ring
          · refine Or.inr (Or.inr ⟨qmin needed f.nutrition_value, ?_, hlt, rfl⟩)
            rw [hcv, hmineq]
            exact hpos
      next hnc =>
        obtain ⟨ihf, iha, ihr⟩ := ih needed hw h0 hfs
        refine ⟨?_, fun hall => ?_, List.Forall₂.cons (Or.inl rfl) ihr⟩
        · show (consumeLoop needed fs).1.val = _
          rw [ihf, consumableNutritionSum_cons, if_neg hnc, zero_add]
        · have hacf : f.active = true := hall f (List.mem_cons_self _ _)
          show activeNutritionSum (f :: (consumeLoop needed fs).2) = _
          rw [activeNutritionSum_cons, activeNutritionSum_cons,
            iha (fun g hg => hall g (List.mem_cons_of_mem _ hg))]
          ring

/-! ### Claim C8 -/

/-- C8: on reproduction ticks (step_count divisible by larvae_period)
with consumable nutrition at least food_threshold, exactly
food_threshold units are removed from the active nutrition pool, each
fungus being left untouched, deactivated whole, or partially depleted,
and exactly larvae_per_cycle ants are appended; on reproduction ticks
with insufficient nutrition, and on all other ticks, nothing changes. -/
theorem C8_ant_reproduction :
    ∀ (rc : ReproductionConfig) (gs sc : Nat) (pops : Pops) (r : Rng),
      (∀ f ∈ pops.fungi, f.nutrition_value.Wf) →
      (∀ f ∈ pops.fungi, f.active = true) →
      (sc % rc.larvae_period ≠ 0 →
        ant_reproduction rc gs sc pops r = (pops.fungi, pops.ants, r)) ∧
      (sc % rc.larvae_period = 0 →
        consumableNutritionSum pops.fungi < rc.food_threshold →
        ant_reproduction rc gs sc pops r = (pops.fungi, pops.ants, r)) ∧
      (sc % rc.larvae_period = 0 →
        (rc.food_threshold : ℚ) ≤ consumableNutritionSum pops.fungi →
        (ant_reproduction rc gs sc pops r).2.1.length =
            pops.ants.length + rc.larvae_per_cycle ∧
          activeNutritionSum (ant_reproduction rc gs sc pops r).1 =
            activeNutritionSum pops.fungi - rc.food_threshold ∧
          List.Forall₂ consumedRel pops.fungi (ant_reproduction rc gs sc pops r).1) := by
  intro rc gs sc pops r hwf hall
  obtain ⟨hsw, hsv⟩ := consumableSum_val pops.fungi hwf
  have htw : (Q.ofNat rc.food_threshold).Wf := Q.wf_ofNat _
  have htv : (Q.ofNat rc.food_threshold).val = (rc.food_threshold : ℚ) := Q.val_ofNat _
  refine ⟨?_, ?_, ?_⟩
  · intro hmod
    unfold ant_reproduction
    rw [if_pos hmod]
  · intro hmod hlt
    unfold ant_reproduction
    rw [if_neg (by simpa using hmod), if_neg]
    intro hQ
    have := (Q.le_iff_val htw hsw).mp hQ
    rw [htv, hsv] at this
    linarith
  · intro hmod hge
    have hQ : Q.ofNat rc.food_threshold ≤ consumableSum pops.fungi := by
      rw [Q.le_iff_val htw hsw, htv, hsv]
      exact hge
    have h0 : 0 ≤ (Q.ofNat rc.food_threshold).val := by
      rw [htv]
      positivity
    obtain ⟨hcf, hca, hcr⟩ :=
      consumeLoop_spec pops.fungi (Q.ofNat rc.food_threshold) htw h0 hwf
    have hrem : (consumeLoop (Q.ofNat rc.food_threshold) pops.fungi).1.val = 0 := by
      have hmin : min (Q.ofNat rc.food_threshold).val (consumableNutritionSum pops.fungi) =
          (Q.ofNat rc.food_threshold).val := by
        apply min_eq_left
        rw [htv]
        exact hge
      rw [hcf, hmin]
      ring
    have hfin : ant_reproduction rc gs sc pops r =
        ((consumeLoop (Q.ofNat rc.food_threshold) pops.fungi).2,
          (addAnts gs pops.plants (consumeLoop (Q.ofNat rc.food_threshold) pops.fungi).2
            pops.parasites pops.predators rc.larvae_per_cycle pops.ants r).1,
          (addAnts gs pops.plants (consumeLoop (Q.ofNat rc.food_threshold) pops.fungi).2
            pops.parasites pops.predators rc.larvae_per_cycle pops.ants r).2) := by
      unfold ant_reproduction
      rw [if_neg (by simpa using hmod), if_pos hQ]
    rw [hfin]
    refine ⟨addAnts_length _ _ _ _ _ _ _ _, ?_, hcr⟩
    rw [hca hall, hrem, htv]
    ring

/-- C8 witness: one consumable fungus of nutrition 10 against threshold
10 on a reproduction tick: one ant is added, the pool drops by exactly
10 (the fungus is deactivated whole). -/
theorem C8_witness :
    (ant_reproduction cfgReproTick.reproduction 5 1
        ⟨[mkAnt (0, 0)], [], [mkFungus (0, 0)], [], []⟩ (rngOf [0, 0])).2.1.length = 1 + 1 ∧
    activeNutritionSum (ant_reproduction cfgReproTick.reproduction 5 1
        ⟨[mkAnt (0, 0)], [], [mkFungus (0, 0)], [], []⟩ (rngOf [0, 0])).1 =
      activeNutritionSum [mkFungus (0, 0)] -
        (cfgReproTick.reproduction.food_threshold : ℚ) ∧
    List.Forall₂ consumedRel [mkFungus (0, 0)]
      (ant_reproduction cfgReproTick.reproduction 5 1
        ⟨[mkAnt (0, 0)], [], [mkFungus (0, 0)], [], []⟩ (rngOf [0, 0])).1 := by
  have h := (C8_ant_reproduction cfgReproTick.reproduction 5 1
      ⟨[mkAnt (0, 0)], [], [mkFungus (0, 0)], [], []⟩ (rngOf [0, 0])
      (by intro f hf; rw [List.mem_singleton.mp hf]; decide)
      (by intro f hf; rw [List.mem_singleton.mp hf]; rfl)).2.2
    (by decide)
    (by
      have h1 : consumableNutritionSum [mkFungus ((0 : ℤ), (0 : ℤ))] = (10 : ℚ) := by
        have hcan : (mkFungus ((0 : ℤ), (0 : ℤ))).can_be_consumed = true := rfl
        have h2 : (mkFungus ((0 : ℤ), (0 : ℤ))).nutrition_value = Q.ofNat 10 := rfl
        simp only [consumableNutritionSum, List.map_cons, List.map_nil, List.sum_cons,
          List.sum_nil, hcan, if_true, h2, Q.val_ofNat]
        norm_num
      rw [h1]
      norm_num [cfgReproTick, cfgScenarioA])
  exact ⟨h.1, h.2.1, h.2.2⟩

/-- C10 amended witness: an immature (maturity 0, hence not harvestable)
plant at the cell of the ant is deactivated anyway and a consumable fungus is
created. -/
theorem C10_amended_witness :
    Plant.can_be_harvested { position := ((0 : ℤ), (0 : ℤ)), maturity := 0 } = false ∧
    Ant.interact_with_environment (0, 0) [{ position := ((0 : ℤ), (0 : ℤ)), maturity := 0 }] [] =
      ([{ position := ((0 : ℤ), (0 : ℤ)), active := false, maturity := 0 }], [mkFungus (0, 0)]) ∧
    (mkFungus (0, 0)).can_be_consumed = true := by
  refine ⟨by decide, ?_, (C10_amended_interact.2.2 (0, 0)).1⟩
  have h := C10_amended_interact.2.1 (0, 0)
    [{ position := ((0 : ℤ), (0 : ℤ)), maturity := 0 }] [] 0 (by decide)
  rw [h]
  decide

end AntsSim
